import Mathlib

/-!
# GraphicsEngine: render frame scheduling

A shallow embedding of `interface/src/graphics/GraphicsEngine.cpp`, followed by the video
packet reassembly of `interface/src/avatar/Face.cpp` (namespace `Face`).

Calls to external collaborators (display plugin, gpu context, scene, render
engine, application) are recorded as events of a trace, in program order.
Values that the code only copies around (matrices, framebuffers, textures)
are opaque tokens.

Not recorded: the profiling scopes (`PROFILE_RANGE`, `PerformanceTimer`) and the
`DependencyManager::get` lookups. The engine is taken to be initialised: the active
display plugin, `_gpuContext`, `_renderEngine` and `_renderScene` are dereferenced
without a check in the code and such a call is recorded as made. The collaborators
called during a cycle (overlay, job graph, sink) are taken not to call back into the
engine.
-/

namespace GraphicsEngine

/-! ## Definitions -/

/-! ### Throttling (GraphicsEngine.cpp:144-182) -/

/-- Modelled from the spec: `MSECS_PER_SECOND` is declared in a shared header elsewhere in the
repository; the throttle period is `1000 / 15` milliseconds for a 15 Hz sink. -/
def MSECS_PER_SECOND : Nat := 1000

/-- The constant `static const unsigned int THROTTLED_SIM_FRAMERATE = 15;`. -/
def THROTTLED_SIM_FRAMERATE : Nat := 15

/-- The constant `static const int THROTTLED_SIM_FRAME_PERIOD_MS = MSECS_PER_SECOND / THROTTLED_SIM_FRAMERATE;`
(integer division). -/
def THROTTLED_SIM_FRAME_PERIOD_MS : Int :=
  ((MSECS_PER_SECOND / THROTTLED_SIM_FRAMERATE : Nat) : Int)

/-- The function `GraphicsEngine::shouldPaint`. `isThrottled` is the answer of
`displayPlugin->isThrottled()` and `elapsed` the value of
`_renderEventHandler->_lastTimeRendered.elapsed()` (a signed 64-bit count of milliseconds). -/
def shouldPaint (isThrottled : Bool) (elapsed : Int) : Bool :=
  if isThrottled && decide (elapsed < THROTTLED_SIM_FRAME_PERIOD_MS) then
    false
  else
    true

/-- State of the trigger loop: start of the last-rendered timer and number of executed cycles. -/
structure TriggerState where
  lastTimeRendered : Int
  cycles : Nat
  deriving DecidableEq, Repr

/-- Modelled from the spec: the trigger loop of the render event handler, which is implemented
elsewhere in the repository. On a trigger at time `now` the throttle decision is evaluated on the
time elapsed since the last executed cycle; when it says run, the last-rendered timer restarts
and one cycle is executed, otherwise the trigger is skipped. -/
def onTrigger (isThrottled : Bool) (s : TriggerState) (now : Int) : TriggerState :=
  if shouldPaint isThrottled (now - s.lastTimeRendered) then
    { lastTimeRendered := now, cycles := s.cycles + 1 }
  else
    s

/-- Modelled from the spec: a sequence of triggers handled one after the other. -/
def runTriggers (isThrottled : Bool) (s : TriggerState) (triggers : List Int) : TriggerState :=
  triggers.foldl (onTrigger isThrottled) s

/-- Trigger timestamps of the scenario: every 10 ms over 200 ms, `0, 10, ..., 200`. -/
def scenarioTriggers : List Int :=
  (List.range 21).map (fun k => 10 * (k : Int))

/-! ### Frame gate (GraphicsEngine.cpp:184-187) -/

/-- The members of `RenderEventHandler` that `GraphicsEngine.cpp` touches. -/
structure RenderEventHandler where
  _pendingRenderEvent : Bool
  _lastTimeRendered : Int
  deriving DecidableEq, Repr

/-- The operation `std::atomic<bool>::compare_exchange_strong(expected, desired)`:
returns the success flag and the new value of the atomic. -/
def compare_exchange_strong (cur expected desired : Bool) : Bool × Bool :=
  if cur = expected then (true, desired) else (false, cur)

/-- The function `GraphicsEngine::checkPendingRenderEvent`, on the `_renderEventHandler` member
(`none` is the null pointer). Returns the result and the member after the call. -/
def checkPendingRenderEvent (h : Option RenderEventHandler) : Bool × Option RenderEventHandler :=
  let expected := false
  match h with
  | none => (false, none)
  | some r =>
    let res := compare_exchange_strong r._pendingRenderEvent expected true
    (res.1, some { r with _pendingRenderEvent := res.2 })

/-- A sequence of `n` calls of `checkPendingRenderEvent` with no release in between:
the results in call order and the final member. -/
def checkPendingRenderEventN :
    Nat → Option RenderEventHandler → List Bool × Option RenderEventHandler
  | 0, h => ([], h)
  | n + 1, h =>
    let r := checkPendingRenderEvent h
    let rest := checkPendingRenderEventN n r.2
    (r.1 :: rest.1, rest.2)

/-- The pending-frame flag of the handler, when there is a handler. -/
def pendingFlag (h : Option RenderEventHandler) : Option Bool :=
  h.map (fun r => r._pendingRenderEvent)

/-! ### Data copied through a render cycle -/

/-- Opaque token for a `glm::mat4`; the cycle only copies such values. -/
structure Mat4 where
  tag : Nat
  deriving DecidableEq, Repr

/-- The fields of `RenderArgs` that `render_performFrame` reads or writes; `_rest` stands for
all the others. `_context` and `_blitFramebuffer` are shared pointers (`none` is null). -/
structure RenderArgs where
  _context : Option Nat
  _viewport : Int × Int × Int × Int
  _hudOperator : Nat
  _hudTexture : Nat
  _blitFramebuffer : Option Nat
  _details : Nat
  _rest : Nat
  deriving DecidableEq, Repr

/-- The shared snapshot `_appRenderArgs` (guarded by `_renderArgsMutex`): the fields that
`render_performFrame` reads. -/
structure AppRenderArgs where
  _renderArgs : RenderArgs
  _view : Mat4
  _headPose : Mat4
  _eyeToWorld : Mat4
  _sensorToWorld : Mat4
  _isStereo : Bool
  _eyeOffsets : Mat4 × Mat4
  _eyeProjections : Mat4 × Mat4
  deriving DecidableEq, Repr

/-- The recycler lambda attached to a frame at GraphicsEngine.cpp:302-307: it hands the
framebuffer back to the `FramebufferCache` when the cache still exists. -/
inductive Recycler where
  | releaseToFramebufferCache
  deriving DecidableEq, Repr

/-- The fields of `gpu::Frame` that `render_performFrame` writes; `batches` stands for what the
device recorded in the frame. -/
structure Frame where
  frameIndex : Nat
  framebuffer : Option Nat
  framebufferRecycler : Option Recycler
  batches : Nat
  deriving DecidableEq, Repr

/-- One call to an external collaborator, or one access to the shared snapshot. -/
inductive Event where
  /-- The call `qApp->getActiveDisplayPlugin()`. -/
  | getActiveDisplayPlugin
  /-- The call `displayPlugin->beginFrameRender(frameIndex)`. -/
  | beginFrameRender (frameIndex : Nat)
  /-- The call `QMetaObject::invokeMethod(qApp, "updateDisplayMode")`. -/
  | updateDisplayMode
  /-- Taking `_renderArgsMutex` (the `QMutexLocker` constructor). -/
  | lockRenderArgs
  /-- The copy of the shared snapshot made under the lock; `a` is the value it holds then. -/
  | snapshotRead (a : AppRenderArgs)
  /-- Releasing `_renderArgsMutex` (the `QMutexLocker` destructor). -/
  | unlockRenderArgs
  /-- The access to `_appRenderArgs._view` at GraphicsEngine.cpp:252, made without the lock. -/
  | viewReadUnlocked (view : Mat4)
  /-- The call `getGPUContext()->beginFrame(view, pose)`. -/
  | deviceBeginFrame (view pose : Mat4)
  /-- The batch of `gpu::doInBatch` that calls `batch.resetStages()`. -/
  | batchResetStages
  /-- The call `qApp->getDeviceSize()`. -/
  | getDeviceSize
  /-- The call `qApp->getApplicationOverlay().renderOverlay(&renderArgs)`. -/
  | renderOverlay (args : RenderArgs)
  /-- The call `qApp->getApplicationCompositor().setFrameInfo(...)`. -/
  | setFrameInfo (frameIndex : Nat) (eyeToWorld sensorToWorld : Mat4)
  /-- The call `framebufferCache->getFrameBufferSize()`. -/
  | getFrameBufferSize
  /-- The call `framebufferCache->getFramebuffer()`. -/
  | getFramebuffer
  /-- The call `renderArgs._context->enableStereo(enabled)`. -/
  | enableStereo (context : Nat) (enabled : Bool)
  /-- The call `renderArgs._context->setStereoProjections(...)`. -/
  | setStereoProjections (context : Nat) (projections : Mat4 × Mat4)
  /-- The call `renderArgs._context->setStereoViews(...)`. -/
  | setStereoViews (context : Nat) (offsets : Mat4 × Mat4)
  /-- The call `displayPlugin->getHUDOperator()`. -/
  | getHUDOperator
  /-- The call `qApp->getApplicationOverlay().getOverlayTexture()`. -/
  | getOverlayTexture
  /-- The call `_renderScene->allocateID()`. -/
  | sceneAllocateID
  /-- The call `_renderScene->enqueueTransaction(transaction)` resetting item `item`. -/
  | sceneEnqueueTransaction (item : Nat)
  /-- Setting `_renderEngine->getRenderContext()->args` and calling `_renderEngine->run()`. -/
  | engineRun (args : RenderArgs)
  /-- The call `getGPUContext()->endFrame()`. -/
  | deviceEndFrame
  /-- The call `displayPlugin->submitFrame(frame)`. -/
  | submitFrame (frame : Frame)
  /-- The call `Stats::getInstance()->setRenderDetails(details)`. -/
  | setRenderDetails (details : Nat)
  /-- The call `_frameTimingsScriptingInterface.addValue(duration)`. -/
  | addFrameTiming (duration : Nat)
  /-- The call `_renderScene->enqueueFrame()`. -/
  | sceneEnqueueFrame
  /-- The call `_renderScene->processTransactionQueue()`. -/
  | sceneProcessTransactionQueue
  /-- The call `_gpuContext->shutdown()`. -/
  | gpuContextShutdown
  /-- The assignment `_renderScene = nullptr`, which drops the engine's scene reference. -/
  | releaseRenderScene
  /-- The assignment `_renderEngine = nullptr`, which drops the render engine reference. -/
  | releaseRenderEngine
  /-- The call `_renderEventHandler->deleteLater()`. -/
  | renderEventHandlerDeleteLater
  deriving DecidableEq, Repr

/-- The members of `GraphicsEngine` (and the static `WorldBoxRenderData::_item`) that the
modelled functions read or write. Shared pointers are `Option`s, `none` being null. -/
structure Engine where
  _renderFrameCount : Nat
  _appRenderArgs : AppRenderArgs
  _renderEventHandler : Option RenderEventHandler
  _renderScene : Option Nat
  _renderEngine : Option Nat
  _gpuContext : Option Nat
  _renderLoopCounter : Nat
  worldBoxItem : Nat
  deriving DecidableEq, Repr

/-- What the collaborators answer during one call of `render_performFrame`. -/
structure FrameEnv where
  /-- Result of `displayPlugin->beginFrameRender`. -/
  sinkAccepts : Bool
  /-- The two readings of `usecTimestampNow()` (unsigned 64-bit). -/
  paintBegin : Nat
  paintEnd : Nat
  /-- Result of `qApp->getDeviceSize()`. -/
  deviceSize : Int × Int
  /-- Result of `framebufferCache->getFramebuffer()`. -/
  finalFramebuffer : Option Nat
  /-- Result of `displayPlugin->getHUDOperator()`. -/
  hudOperator : Nat
  /-- Result of `getOverlayTexture()`. -/
  overlayTexture : Nat
  /-- The predicate `render::Item::isValidID` of the render library. -/
  isValidID : Nat → Bool
  /-- Result of `_renderScene->allocateID()`. -/
  allocatedID : Nat
  /-- The `_details` that the job graph leaves in the render args. -/
  details : Nat
  /-- The frame that `getGPUContext()->endFrame()` returns. -/
  deviceFrame : Frame

/-- Local variables of `render_performFrame` that are live after the locked block
(GraphicsEngine.cpp:198-248). `context` is the non-null `renderArgs._context`. -/
structure FrameLocals where
  lastPaintBegin : Nat
  renderArgs : RenderArgs
  context : Nat
  HMDSensorPose : Mat4
  eyeToWorld : Mat4
  sensorToWorld : Mat4
  isStereo : Bool
  stereoEyeOffsets : Mat4 × Mat4
  stereoEyeProjections : Mat4 × Mat4
  deriving DecidableEq, Repr

/-- The function `GraphicsEngine::editRenderArgs`: the editor runs on the shared snapshot
under `_renderArgsMutex`. -/
def editRenderArgs (editor : AppRenderArgs → AppRenderArgs) (st : Engine) : Engine :=
  { st with _appRenderArgs := editor st._appRenderArgs }

/-- The function `GraphicsEngine::render_runRenderFrame`. -/
def render_runRenderFrame (env : FrameEnv) (st : Engine) (renderArgs : RenderArgs) :
    Engine × List Event :=
  let r : Engine × List Event :=
    if !env.isValidID st.worldBoxItem then
      ({ st with worldBoxItem := env.allocatedID },
        [Event.sceneAllocateID, Event.sceneEnqueueTransaction env.allocatedID])
    else
      (st, [])
  (r.1, r.2 ++ [Event.engineRun renderArgs])

/-- First part of `GraphicsEngine::render_performFrame`, GraphicsEngine.cpp:191-248: from the
entry to the release of `_renderArgsMutex`. The counter `_renderFrameCount` is an unsigned
integer of `w` bits (its declaration is in the class header). The third component
is `none` when the function has returned early. -/
def render_performFrame_locked (w : Nat) (env : FrameEnv) (st : Engine) :
    Engine × List Event × Option FrameLocals :=
  let st := { st with _renderFrameCount := (st._renderFrameCount + 1) % 2 ^ w }
  let lastPaintBegin := env.paintBegin
  let tr := [Event.getActiveDisplayPlugin, Event.beginFrameRender st._renderFrameCount]
  if !env.sinkAccepts then
    (st, tr ++ [Event.updateDisplayMode], none)
  else
    let tr := tr ++ [Event.lockRenderArgs, Event.snapshotRead st._appRenderArgs]
    let renderArgs := st._appRenderArgs._renderArgs
    match st._appRenderArgs._renderArgs._context with
    | none => (st, tr ++ [Event.unlockRenderArgs], none)
    | some context =>
      (st, tr ++ [Event.unlockRenderArgs], some {
        lastPaintBegin := lastPaintBegin
        renderArgs := renderArgs
        context := context
        HMDSensorPose := st._appRenderArgs._headPose
        eyeToWorld := st._appRenderArgs._eyeToWorld
        sensorToWorld := st._appRenderArgs._sensorToWorld
        isStereo := st._appRenderArgs._isStereo
        stereoEyeOffsets := st._appRenderArgs._eyeOffsets
        stereoEyeProjections := st._appRenderArgs._eyeProjections })

/-- Second part of `GraphicsEngine::render_performFrame`, GraphicsEngine.cpp:250-326: from the
release of `_renderArgsMutex` to the end. -/
def render_performFrame_unlocked (env : FrameEnv) (st : Engine) (l : FrameLocals) :
    Engine × List Event :=
  let renderArgs := l.renderArgs
  let tr := [Event.viewReadUnlocked st._appRenderArgs._view,
    Event.deviceBeginFrame st._appRenderArgs._view l.HMDSensorPose,
    Event.batchResetStages]
  let renderArgs := { renderArgs with _viewport := (0, 0, env.deviceSize.1, env.deviceSize.2) }
  let tr := tr ++ [Event.getDeviceSize, Event.renderOverlay renderArgs]
  let tr := tr ++ [Event.setFrameInfo st._renderFrameCount l.eyeToWorld l.sensorToWorld]
  let finalFramebuffer := env.finalFramebuffer
  let tr := tr ++ [Event.getFrameBufferSize, Event.getFramebuffer]
  let tr := tr ++ (if l.isStereo then
      [Event.enableStereo l.context true,
       Event.setStereoProjections l.context l.stereoEyeProjections,
       Event.setStereoViews l.context l.stereoEyeOffsets]
    else [])
  let renderArgs := { renderArgs with
    _hudOperator := env.hudOperator
    _hudTexture := env.overlayTexture
    _blitFramebuffer := finalFramebuffer }
  let tr := tr ++ [Event.getHUDOperator, Event.getOverlayTexture]
  let run := render_runRenderFrame env st renderArgs
  let st := run.1
  let tr := tr ++ run.2
  let renderArgs := { renderArgs with _details := env.details }
  let frame := { env.deviceFrame with
    frameIndex := st._renderFrameCount
    framebuffer := finalFramebuffer
    framebufferRecycler := some Recycler.releaseToFramebufferCache }
  let tr := tr ++ [Event.deviceEndFrame]
  let st := { st with _renderLoopCounter := st._renderLoopCounter + 1 }
  let tr := tr ++ [Event.submitFrame frame]
  let renderArgs := { renderArgs with _blitFramebuffer := none }
  let tr := tr ++ [Event.enableStereo l.context false]
  let tr := tr ++ [Event.setRenderDetails renderArgs._details]
  let lastPaintDuration := (env.paintEnd + 2 ^ 64 - l.lastPaintBegin % 2 ^ 64) % 2 ^ 64
  (st, tr ++ [Event.addFrameTiming lastPaintDuration])

/-- The function `GraphicsEngine::render_performFrame`, with the simulation thread applying
`editor` through `editRenderArgs` right after the render thread has released
`_renderArgsMutex` (the earliest point at which the mutex lets it in). -/
def render_performFrame_edited (w : Nat) (env : FrameEnv)
    (editor : AppRenderArgs → AppRenderArgs) (st : Engine) : Engine × List Event :=
  match render_performFrame_locked w env st with
  | (st1, tr, none) => (st1, tr)
  | (st1, tr, some l) =>
    let r := render_performFrame_unlocked env (editRenderArgs editor st1) l
    (r.1, tr ++ r.2)

/-- The function `GraphicsEngine::render_performFrame` with no concurrent edit of the shared
snapshot during the call. -/
def render_performFrame (w : Nat) (env : FrameEnv) (st : Engine) : Engine × List Event :=
  render_performFrame_edited w env id st

/-- The function `GraphicsEngine::shutdown`. -/
def shutdown (st : Engine) : Engine × List Event :=
  let tr := [Event.sceneEnqueueFrame, Event.sceneProcessTransactionQueue]
  let tr := tr ++ [Event.gpuContextShutdown]
  let st := { st with _renderScene := none }
  let tr := tr ++ [Event.releaseRenderScene]
  let st := { st with _renderEngine := none }
  let tr := tr ++ [Event.releaseRenderEngine]
  (st, tr ++ [Event.renderEventHandlerDeleteLater])

/-- The eight steps of a render cycle that the cycle order is stated about. -/
def Event.isCycleStep : Event → Bool
  | .beginFrameRender _ => true
  | .snapshotRead _ => true
  | .deviceBeginFrame _ _ => true
  | .batchResetStages => true
  | .renderOverlay _ => true
  | .engineRun _ => true
  | .deviceEndFrame => true
  | .submitFrame _ => true
  | _ => false

/-- Work of a cycle past the sink's answer: an access to the shared snapshot, a device frame
call, the overlay pre-pass, the job graph run or the frame submission. -/
def Event.isFrameWork : Event → Bool
  | .lockRenderArgs => true
  | .snapshotRead _ => true
  | .viewReadUnlocked _ => true
  | .deviceBeginFrame _ _ => true
  | .batchResetStages => true
  | .renderOverlay _ => true
  | .engineRun _ => true
  | .deviceEndFrame => true
  | .submitFrame _ => true
  | _ => false

/-- Device work of a cycle: a device frame call (with the view access that feeds it), the
stage reset, the overlay pre-pass, the job graph run or the frame submission. -/
def Event.isDeviceWork : Event → Bool
  | .viewReadUnlocked _ => true
  | .deviceBeginFrame _ _ => true
  | .batchResetStages => true
  | .renderOverlay _ => true
  | .engineRun _ => true
  | .deviceEndFrame => true
  | .submitFrame _ => true
  | _ => false

/-! ### Sequences of cycles and the device frame lifecycle -/

/-- One call of `render_performFrame` in a run: `pre` is what the simulation thread has done
to the shared snapshot (through `editRenderArgs`) since the previous call, `mid` what it does
right after this call has released the lock, `env` what the collaborators answer. -/
structure FrameCall where
  pre : AppRenderArgs → AppRenderArgs
  mid : AppRenderArgs → AppRenderArgs
  env : FrameEnv

/-- A finite sequence of `render_performFrame` calls: final engine state and overall trace. -/
def runFrames (w : Nat) : List FrameCall → Engine → Engine × List Event
  | [], st => (st, [])
  | c :: cs, st =>
    let r := render_performFrame_edited w c.env c.mid (editRenderArgs c.pre st)
    let rest := runFrames w cs r.1
    (rest.1, r.2 ++ rest.2)

/-- The two frame calls of the device context. -/
inductive DeviceCall where
  | beginFrame
  | endFrame
  deriving DecidableEq, Repr

/-- The device frame call that an event is, if any. -/
def Event.deviceCall : Event → Option DeviceCall
  | .deviceBeginFrame _ _ => some DeviceCall.beginFrame
  | .deviceEndFrame => some DeviceCall.endFrame
  | _ => none

/-- The device frame calls of a trace, in order. -/
def deviceCalls (tr : List Event) : List DeviceCall :=
  tr.filterMap Event.deviceCall

/-- The sequence `beginFrame, endFrame` repeated `k` times. -/
def alternation : Nat → List DeviceCall
  | 0 => []
  | k + 1 => DeviceCall.beginFrame :: DeviceCall.endFrame :: alternation k

/-- Modelled from the spec: the states of the Device Frame Lifecycle (the device context is
implemented in the gpu library). -/
inductive DeviceState where
  | Idle
  | FrameActive
  | FrameClosed
  deriving DecidableEq, Repr

/-- Modelled from the spec: `beginFrame` is only valid from Idle and moves to FrameActive;
from any other state it is a fatal error (`none`). -/
def DeviceState.beginFrame : DeviceState → Option DeviceState
  | .Idle => some .FrameActive
  | _ => none

/-- Modelled from the spec: `endFrame` is only valid from FrameActive and moves to
FrameClosed; from any other state it is a fatal error (`none`). -/
def DeviceState.endFrame : DeviceState → Option DeviceState
  | .FrameActive => some .FrameClosed
  | _ => none

/-- Modelled from the spec: after `endFrame` the lifecycle resets to Idle for the next cycle. -/
def DeviceState.resetForNextCycle : DeviceState → DeviceState
  | .FrameClosed => .Idle
  | s => s

/-- Modelled from the spec: the effect of one device frame call on the lifecycle. -/
def DeviceState.step (s : DeviceState) : DeviceCall → Option DeviceState
  | .beginFrame => s.beginFrame
  | .endFrame => s.endFrame.map DeviceState.resetForNextCycle

/-- Modelled from the spec: the lifecycle run over a sequence of device frame calls; `none`
as soon as one of them is rejected. -/
def DeviceState.run : DeviceState → List DeviceCall → Option DeviceState
  | s, [] => some s
  | s, c :: cs =>
    match s.step c with
    | none => none
    | some s1 => DeviceState.run s1 cs

/-! ### Concrete inputs -/

/-- Render args with device context `7`. -/
def sampleRenderArgs : RenderArgs :=
  { _context := some 7, _viewport := (0, 0, 0, 0), _hudOperator := 0, _hudTexture := 0,
    _blitFramebuffer := none, _details := 0, _rest := 0 }

/-- A mono snapshot whose view is the matrix `⟨1⟩`. -/
def sampleSnapshot : AppRenderArgs :=
  { _renderArgs := sampleRenderArgs, _view := ⟨1⟩, _headPose := ⟨2⟩, _eyeToWorld := ⟨3⟩,
    _sensorToWorld := ⟨4⟩, _isStereo := false, _eyeOffsets := (⟨5⟩, ⟨6⟩),
    _eyeProjections := (⟨7⟩, ⟨8⟩) }

/-- An initialised engine that has rendered 41 frames. -/
def sampleEngine : Engine :=
  { _renderFrameCount := 41, _appRenderArgs := sampleSnapshot,
    _renderEventHandler := some { _pendingRenderEvent := false, _lastTimeRendered := 0 },
    _renderScene := some 1, _renderEngine := some 2, _gpuContext := some 7,
    _renderLoopCounter := 41, worldBoxItem := 1 }

/-- The sample engine with a snapshot that carries no device context. -/
def sampleEngineNoContext : Engine :=
  editRenderArgs (fun a => { a with _renderArgs := { a._renderArgs with _context := none } })
    sampleEngine

/-- Collaborator answers for one cycle; `accepts` is the sink's answer to the frame start. -/
def sampleEnv (accepts : Bool) : FrameEnv :=
  { sinkAccepts := accepts, paintBegin := 1000, paintEnd := 1500, deviceSize := (640, 480),
    finalFramebuffer := some 9, hudOperator := 11, overlayTexture := 12,
    isValidID := fun i => decide (i ≠ 0), allocatedID := 1, details := 13,
    deviceFrame := { frameIndex := 0, framebuffer := none, framebufferRecycler := none,
                     batches := 5 } }

/-- An editor that replaces the view of the snapshot by the matrix `⟨99⟩`. -/
def sampleViewEdit (a : AppRenderArgs) : AppRenderArgs :=
  { a with _view := ⟨99⟩ }

/-! ### What reaches the device, the job graph and the sink -/

/-- A call that hands data to the device context, to the job graph or to the output sink. -/
def Event.isConsumerCall : Event → Bool
  | .beginFrameRender _ => true
  | .deviceBeginFrame _ _ => true
  | .batchResetStages => true
  | .enableStereo _ _ => true
  | .setStereoProjections _ _ => true
  | .setStereoViews _ _ => true
  | .engineRun _ => true
  | .deviceEndFrame => true
  | .submitFrame _ => true
  | _ => false

/-- The calls of a trace that hand data to the device, the job graph or the sink, with their
arguments, in order. -/
def consumerCalls (tr : List Event) : List Event :=
  tr.filter Event.isConsumerCall

/-- The locked reads of the shared snapshot in a trace, with the value read. -/
def snapshotReads (tr : List Event) : List Event :=
  tr.filter (fun e => match e with
    | .snapshotRead _ => true
    | _ => false)

/-! ### Shutdown order -/

/-- A step that stops or disposes of the render scheduler (the render event handler). -/
def Event.isSchedulerStop : Event → Bool
  | .renderEventHandlerDeleteLater => true
  | _ => false

/-- The steps of a trace before the device context teardown. -/
def beforeDeviceTeardown (tr : List Event) : List Event :=
  tr.takeWhile (fun e => e != Event.gpuContextShutdown)

/-- The steps of a trace from the device context teardown on. -/
def fromDeviceTeardown (tr : List Event) : List Event :=
  tr.dropWhile (fun e => e != Event.gpuContextShutdown)

/-- The device context is torn down only after the scheduler has been stopped: some step
before the teardown stops the scheduler and no step from the teardown on stops or disposes
of it. -/
def deviceTornDownAfterScheduler (tr : List Event) : Bool :=
  (beforeDeviceTeardown tr).any Event.isSchedulerStop
    && !(fromDeviceTeardown tr).any Event.isSchedulerStop

/-- Modelled from the spec: the transaction queue of the Scene collaborator (implemented
in the render library), following the Scene contract of the spec and the comments
at GraphicsEngine.cpp:103-107. `transactionQueue` holds the transactions enqueued and not yet
flushed, `transactionFrames` the flushed ones waiting to be applied, `applied` the ones that
have been applied. -/
structure SceneModel where
  transactionQueue : List Nat
  transactionFrames : List (List Nat)
  applied : List Nat
  deriving DecidableEq, Repr

/-- Modelled from the spec: the effect of a scene call on the transaction queue.
`enqueueTransaction` appends to the queue, `enqueueFrame` flushes the queue into a frame,
`processTransactionQueue` applies all the flushed frames. -/
def SceneModel.step (s : SceneModel) : Event → SceneModel
  | .sceneEnqueueTransaction t => { s with transactionQueue := s.transactionQueue ++ [t] }
  | .sceneEnqueueFrame =>
    { s with transactionFrames := s.transactionFrames ++ [s.transactionQueue]
             transactionQueue := [] }
  | .sceneProcessTransactionQueue =>
    { s with applied := s.applied ++ s.transactionFrames.flatten
             transactionFrames := [] }
  | _ => s

/-- Modelled from the spec: the scene after the calls of a trace. -/
def SceneModel.replay (s : SceneModel) (tr : List Event) : SceneModel :=
  tr.foldl SceneModel.step s

/-- A scene with one flushed frame and two transactions still in the queue. -/
def sampleScene : SceneModel :=
  { transactionQueue := [3, 4], transactionFrames := [[1, 2]], applied := [0] }

/-! ### Stereo mode of the device context -/

/-- Modelled from the spec: stereo is a mode flag of a device context (implemented in the gpu
library), and `enableStereo(enabled)` sets the flag of the context it is called on. The state
maps a device context to its flag; other calls leave it alone. -/
def stereoStep (s : Nat → Bool) : Event → Nat → Bool
  | .enableStereo c enabled => fun c1 => if c1 = c then enabled else s c1
  | _ => s

/-- Modelled from the spec: the stereo flags after the calls of a trace. -/
def stereoReplay (s : Nat → Bool) (tr : List Event) : Nat → Bool :=
  tr.foldl stereoStep s

/-- Modelled from the spec: for each job graph run of a trace, in order, the stereo flag that
the device context of its render args has when the run starts. -/
def jobGraphStereo : (Nat → Bool) → List Event → List Bool
  | _, [] => []
  | s, .engineRun args :: es =>
    (match args._context with
      | some c => s c
      | none => false) :: jobGraphStereo s es
  | s, e :: es => jobGraphStereo (stereoStep s e) es

/-- The sample engine with a stereo snapshot. -/
def sampleEngineStereo : Engine :=
  editRenderArgs (fun a => { a with _isStereo := true }) sampleEngine

/-- Three calls: a completed cycle, a cycle that the sink rejects, a completed cycle during
which the view is edited. -/
def sampleCalls : List FrameCall :=
  [{ pre := id, mid := id, env := sampleEnv true },
   { pre := id, mid := id, env := sampleEnv false },
   { pre := id, mid := sampleViewEdit, env := sampleEnv true }]

/-! ### Frame indices -/

/-- The traces of the calls of a sequence of `render_performFrame` calls, one per call. -/
def runFramesTraces (w : Nat) : List FrameCall → Engine → List (List Event)
  | [], _ => []
  | c :: cs, st =>
    let r := render_performFrame_edited w c.env c.mid (editRenderArgs c.pre st)
    r.2 :: runFramesTraces w cs r.1

/-- The frame index passed to the sink, if the event is `beginFrameRender`. -/
def Event.sinkIndex : Event → Option Nat
  | .beginFrameRender i => some i
  | _ => none

/-- The frame index of the submitted frame, if the event is `submitFrame`. -/
def Event.frameIndex : Event → Option Nat
  | .submitFrame f => some f.frameIndex
  | _ => none

/-- The frame indices passed to the sink's `beginFrameRender` in a trace, in order. -/
def sinkIndices (tr : List Event) : List Nat :=
  tr.filterMap Event.sinkIndex

/-- The frame indices of the frames submitted in a trace, in order. -/
def frameIndices (tr : List Event) : List Nat :=
  tr.filterMap Event.frameIndex

/-! ### Job graph assembly (GraphicsEngine.cpp:80-96) -/

/-- The names under which `initializeRender` adds jobs to the render engine. -/
inductive JobName where
  | UpdateScene
  | SecondaryCameraJob
  | RenderMainView
  deriving DecidableEq, Repr

/-- Opaque token for a `render::CullFunctor`. -/
structure CullFunctor where
  tag : Nat
  deriving DecidableEq, Repr

/-- The value `render::ItemKey::TAG_BITS_0`. -/
inductive ItemKeyTag where
  | TAG_BITS_0
  deriving DecidableEq, Repr

/-- The job types that `initializeRender` instantiates, with their constructor arguments. -/
inductive Job where
  /-- The job `addJob<UpdateSceneTask>(name)`. -/
  | UpdateSceneTask
  /-- The job `addJob<SecondaryCameraRenderTask>(name, cullFunctor, isDeferred)`. -/
  | SecondaryCameraRenderTask (cullFunctor : CullFunctor) (isDeferred : Bool)
  /-- The job `addJob<RenderViewTask>(name, cullFunctor, isDeferred, tagBits, tagMask)`. -/
  | RenderViewTask (cullFunctor : CullFunctor) (isDeferred : Bool) (tagBits tagMask : ItemKeyTag)
  deriving DecidableEq, Repr

/-- One call made by `initializeRender`. -/
inductive InitStep where
  /-- The call `_renderEngine->addJob<...>(name, ...)`. -/
  | addJob (name : JobName) (job : Job)
  /-- The call `_renderEngine->load()`. -/
  | load
  /-- The call `_renderEngine->registerScene(_renderScene)`. -/
  | registerScene (scene : Option Nat)
  /-- The call `DependencyManager::get<GeometryCache>()->initializeShapePipelines()`. -/
  | initializeShapePipelines
  deriving DecidableEq, Repr

/-- The function `GraphicsEngine::initializeRender`. `Q_OS_ANDROID` tells whether the build
defines that preprocessor symbol, `shouldRender` is the predicate `LODManager::shouldRender`
(defined in the LOD manager). -/
def initializeRender (Q_OS_ANDROID : Bool) (shouldRender : CullFunctor) (disableDeferred : Bool)
    (st : Engine) : List InitStep :=
  let cullFunctor := shouldRender
  let tr := [InitStep.addJob JobName.UpdateScene Job.UpdateSceneTask]
  let tr := tr ++ (if !Q_OS_ANDROID then
      [InitStep.addJob JobName.SecondaryCameraJob
        (Job.SecondaryCameraRenderTask cullFunctor (!disableDeferred))]
    else [])
  let tr := tr ++ [InitStep.addJob JobName.RenderMainView
      (Job.RenderViewTask cullFunctor (!disableDeferred) ItemKeyTag.TAG_BITS_0
        ItemKeyTag.TAG_BITS_0)]
  let tr := tr ++ [InitStep.load]
  let tr := tr ++ [InitStep.registerScene st._renderScene]
  tr ++ [InitStep.initializeShapePipelines]

/-- The deferred flag that a job takes, if it takes one. -/
def Job.deferredFlag : Job → Option Bool
  | .UpdateSceneTask => none
  | .SecondaryCameraRenderTask _ d => some d
  | .RenderViewTask _ d _ _ => some d

/-- The cull functor that a job takes, if it takes one. -/
def Job.cullFunctorArg : Job → Option CullFunctor
  | .UpdateSceneTask => none
  | .SecondaryCameraRenderTask f _ => some f
  | .RenderViewTask f _ _ _ => some f

/-- The job that a step appends, if it is an `addJob`. -/
def InitStep.job : InitStep → Option Job
  | .addJob _ j => some j
  | _ => none

/-- The name of the job that a step appends, if it is an `addJob`. -/
def InitStep.jobName : InitStep → Option JobName
  | .addJob n _ => some n
  | _ => none

/-- Whether a step is an `addJob`. -/
def InitStep.isAddJob : InitStep → Bool
  | .addJob _ _ => true
  | _ => false

end GraphicsEngine

/-! ### Video frame reassembly (Face.cpp:51-137) -/

/-- The members of `Face` that `processVideoMessage` reads or writes before it decodes:
`codecInitialised` is `_codec.name != 0`, `_arrivingFrame` the bytes of the `QByteArray`. -/
structure Face where
  codecInitialised : Bool
  _frameCount : Int
  _frameBytesRemaining : Int
  _arrivingFrame : List Nat
  deriving DecidableEq, Repr

namespace Face

/-- Conversion of an unsigned value to `int` (32 bits, two's complement). -/
def toInt (n : Nat) : Int :=
  if n % 2 ^ 32 < 2 ^ 31 then ((n % 2 ^ 32 : Nat) : Int) else ((n % 2 ^ 32 : Nat) : Int) - 2 ^ 32

/-- A video packet: the three `uint32_t` words of its header, as the code reads them, and the
bytes that follow the header. -/
structure VideoPacket where
  frameCount : Nat
  frameSize : Nat
  frameOffset : Nat
  payload : List Nat
  deriving DecidableEq, Repr

/-- Size of the header, `3 * sizeof(uint32_t)`: the value of `packetPosition - packetData`
after the header has been read. -/
def HEADER_BYTES : Nat := 12

/-- The argument `dataBytes`: the size of the packet, header included. -/
def VideoPacket.dataBytes (p : VideoPacket) : Nat :=
  HEADER_BYTES + p.payload.length

/-- The call `QByteArray::resize(size)`: a negative size counts as zero, the bytes kept are
the leading ones, the bytes added are uninitialised (`junk` gives their values). -/
def resize (junk : Nat → Nat) (buf : List Nat) (size : Int) : List Nat :=
  buf.take size.toNat
    ++ (List.range (size.toNat - buf.length)).map (fun i => junk (buf.length + i))

/-- The call `memcpy(buf + offset, src, n)`; `none` when it is undefined (negative size or
offset, or a copy that leaves `src` or `buf`). -/
def memcpy (buf : List Nat) (offset : Int) (src : List Nat) (n : Int) : Option (List Nat) :=
  if 0 ≤ n ∧ 0 ≤ offset ∧ n ≤ src.length ∧ offset + n ≤ buf.length then
    some (buf.take offset.toNat ++ src.take n.toNat ++ buf.drop (offset.toNat + n.toNat))
  else
    none

/-- Lines 52-55 of `processVideoMessage`: the decoder context is initialised on first use. -/
def initCodec (face : Face) : Face :=
  if !face.codecInitialised then { face with codecInitialised := true } else face

/-- Lines 72-76 of `processVideoMessage`: a packet of a newer frame resets the reassembly. -/
def resetForNewFrame (junk : Nat → Nat) (face : Face) (p : VideoPacket) : Face :=
  if toInt p.frameCount > face._frameCount then
    { face with
      _frameCount := toInt p.frameCount
      _frameBytesRemaining := toInt p.frameSize
      _arrivingFrame := resize junk face._arrivingFrame (toInt p.frameSize) }
  else
    face

/-- What one call of `processVideoMessage` produces: the value returned, the members after the
call, and the buffer handed to `vpx_codec_decode` when the decoder is invoked. -/
structure VideoResult where
  returned : Int
  face : Face
  decoded : Option (List Nat)
  deriving DecidableEq, Repr

/-- The function `Face::processVideoMessage` up to the call of the decoder (the conversion of
the decoded images that follows does not touch the reassembly state). `none` when the call is
undefined: the `memcpy` is undefined or `_frameBytesRemaining -= payloadSize` overflows. -/
def processVideoMessage (junk : Nat → Nat) (face : Face) (p : VideoPacket) :
    Option VideoResult :=
  let face := initCodec face
  let frameCount := toInt p.frameCount
  let frameOffset := toInt p.frameOffset
  if frameCount < face._frameCount then
    some { returned := toInt p.dataBytes, face := face, decoded := none }
  else
    let face := resetForNewFrame junk face p
    let payloadSize := toInt (p.dataBytes - HEADER_BYTES)
    match memcpy face._arrivingFrame frameOffset p.payload payloadSize with
    | none => none
    | some buf =>
      let face := { face with _arrivingFrame := buf }
      if face._frameBytesRemaining - payloadSize < -(2 ^ 31) then
        none
      else
        let face := { face with _frameBytesRemaining := face._frameBytesRemaining - payloadSize }
        if face._frameBytesRemaining ≤ 0 then
          some { returned := toInt p.dataBytes, face := face,
                 decoded := some face._arrivingFrame }
        else
          some { returned := toInt p.dataBytes, face := face, decoded := none }

/-- Packets handed to `processVideoMessage` one after the other: the members after the last
call and, per packet, the buffer handed to the decoder if it was invoked. -/
def deliver (junk : Nat → Nat) : Face → List VideoPacket → Option (Face × List (Option (List Nat)))
  | face, [] => some (face, [])
  | face, p :: ps =>
    match processVideoMessage junk face p with
    | none => none
    | some r =>
      match deliver junk r.face ps with
      | none => none
      | some rest => some (rest.1, r.decoded :: rest.2)

/-- A fragment of a frame: where its payload goes in the frame, and the payload. -/
structure Fragment where
  offset : Nat
  payload : List Nat
  deriving DecidableEq, Repr

/-- The fragments of a frame cut into consecutive chunks, the first chunk starting at
`offset`. -/
def fragments : Nat → List (List Nat) → List Fragment
  | _, [] => []
  | offset, c :: cs => { offset := offset, payload := c } :: fragments (offset + c.length) cs

/-- The packet that carries a fragment of frame number `frameCount` of size `frameSize`. -/
def Fragment.toPacket (frameCount frameSize : Nat) (f : Fragment) : VideoPacket :=
  { frameCount := frameCount, frameSize := frameSize, frameOffset := f.offset,
    payload := f.payload }

/-- A face that has decoded frame 4 and still holds its three bytes. -/
def sampleFace : Face :=
  { codecInitialised := true, _frameCount := 4, _frameBytesRemaining := 0,
    _arrivingFrame := [1, 2, 3] }

/-- A face as the constructor leaves it: no decoder context, `_frameCount(0)`, an empty
arriving-frame buffer (the constructor does not set `_frameBytesRemaining`; `0` here). -/
def freshFace : Face :=
  { codecInitialised := false, _frameCount := 0, _frameBytesRemaining := 0,
    _arrivingFrame := [] }

/-- A packet numbered 0 that carries the single byte of a frame of size 1. -/
def samplePacketZero : VideoPacket :=
  { frameCount := 0, frameSize := 1, frameOffset := 0, payload := [7] }

/-- A packet of frame 3, older than the frame of the sample face. -/
def samplePacketOld : VideoPacket :=
  { frameCount := 3, frameSize := 2, frameOffset := 0, payload := [7, 8] }

/-- A frame of five bytes. -/
def sampleData : List Nat := [10, 20, 30, 40, 50]

/-- The sample frame cut into three chunks. -/
def sampleChunks : List (List Nat) := [[10, 20], [30], [40, 50]]

/-- The fragments of the sample frame, in the order last, first, middle. -/
def sampleFragments : List Fragment :=
  [{ offset := 3, payload := [40, 50] }, { offset := 0, payload := [10, 20] },
   { offset := 2, payload := [30] }]

/-- The buffer `buf` after the bytes `src` have been written at `offset`. -/
def write (buf : List Nat) (offset : Nat) (src : List Nat) : List Nat :=
  buf.take offset ++ src ++ buf.drop (offset + src.length)

/-- The payload of the fragment is the part of `data` at the offset of the fragment. -/
def Fragment.sliceOf (data : List Nat) (f : Fragment) : Prop :=
  f.offset + f.payload.length ≤ data.length
    ∧ ∀ j, j < f.payload.length → f.payload[j]? = data[f.offset + j]?

/-- The byte positions that the fragment fills. -/
def Fragment.covers (f : Fragment) (i : Nat) : Prop :=
  f.offset ≤ i ∧ i < f.offset + f.payload.length

/-- Total payload size of a list of fragments. -/
def totalBytes (fs : List Fragment) : Nat :=
  (fs.map (fun f => f.payload.length)).sum

end Face

namespace GraphicsEngine

/-! ## Theorems -/

/-- C1: `shouldPaint` skips exactly when the sink is throttled and the elapsed time is below
the period, the period is `1000 / 15 = 66`, and a sink that is not throttled always paints. -/
theorem shouldPaint_false_iff (isThrottled : Bool) (e : Int) :
    (shouldPaint isThrottled e = false ↔ (isThrottled = true ∧ e < THROTTLED_SIM_FRAME_PERIOD_MS))
    ∧ THROTTLED_SIM_FRAME_PERIOD_MS = 66
    ∧ shouldPaint false e = true := by
  refine ⟨?_, by decide, by simp [shouldPaint]⟩
  cases isThrottled <;> simp [shouldPaint]

/-- C2: with an always-throttled sink and triggers every 10 ms over 200 ms, when the first
trigger executes, exactly 3 cycles run. -/
theorem throttle_scenario_three_cycles (s0 : TriggerState)
    (hfirst : shouldPaint true (0 - s0.lastTimeRendered) = true) :
    (runTriggers true s0 scenarioTriggers).cycles = s0.cycles + 3 := by
  have h1 : onTrigger true s0 0 = { lastTimeRendered := 0, cycles := s0.cycles + 1 } := by
    unfold onTrigger
    rw [if_pos hfirst]
  have h2 : ∀ c : Nat, (runTriggers true { lastTimeRendered := 0, cycles := c }
      (scenarioTriggers.tail)).cycles = c + 2 := by
    intro c
    simp [runTriggers, scenarioTriggers, List.range, List.range.loop, onTrigger, shouldPaint,
      THROTTLED_SIM_FRAME_PERIOD_MS, MSECS_PER_SECOND, THROTTLED_SIM_FRAMERATE]
  have h3 : runTriggers true s0 scenarioTriggers
      = runTriggers true (onTrigger true s0 0) scenarioTriggers.tail := by
    simp [runTriggers, scenarioTriggers, List.range, List.range.loop]
  rw [h3, h1, h2]

/-- Witness for C2: the timer was started 1000 ms before the first trigger. -/
theorem throttle_scenario_three_cycles_witness :
    shouldPaint true (0 - (-1000)) = true
    ∧ (runTriggers true { lastTimeRendered := -1000, cycles := 0 } scenarioTriggers).cycles
        = 0 + 3 :=
  ⟨by decide, throttle_scenario_three_cycles { lastTimeRendered := -1000, cycles := 0 } (by decide)⟩

/-- C3: `checkPendingRenderEvent` returns true exactly when a handler exists and the pending
flag was false; with a handler the flag is true afterwards; and in a run of calls with no
release in between every call after the first returns false, so at most one returns true. -/
theorem checkPendingRenderEvent_gate (h : Option RenderEventHandler) (n : Nat) :
    ((checkPendingRenderEvent h).1 = true ↔ ∃ r, h = some r ∧ r._pendingRenderEvent = false)
    ∧ pendingFlag (checkPendingRenderEvent h).2 = h.map (fun _ => true)
    ∧ (checkPendingRenderEventN (n + 1) h).1
        = (checkPendingRenderEvent h).1 :: List.replicate n false
    ∧ (checkPendingRenderEventN n h).1.count true ≤ 1 := by
  have hflag : ∀ h : Option RenderEventHandler,
      pendingFlag (checkPendingRenderEvent h).2 = h.map (fun _ => true) := by
    intro h
    rcases h with _ | ⟨p, t⟩
    · rfl
    · cases p <;> rfl
  have hdrop : ∀ (m : Nat) (h : Option RenderEventHandler),
      pendingFlag h ≠ some false →
      (checkPendingRenderEventN m h).1 = List.replicate m false := by
    intro m
    induction m with
    | zero => intro h _; rfl
    | succ m ih =>
      intro h hp
      rcases h with _ | ⟨p, t⟩
      · have := ih none (by simp [pendingFlag])
        simp [checkPendingRenderEventN, checkPendingRenderEvent, this, List.replicate_succ]
      · cases p
        · exact absurd rfl hp
        · have := ih (some ⟨true, t⟩) (by simp [pendingFlag])
          simp [checkPendingRenderEventN, checkPendingRenderEvent, compare_exchange_strong,
            this, List.replicate_succ]
  have hafter : ∀ h : Option RenderEventHandler,
      pendingFlag (checkPendingRenderEvent h).2 ≠ some false := by
    intro h
    rw [hflag h]
    cases h <;> simp
  have hseq : ∀ (m : Nat) (h : Option RenderEventHandler),
      (checkPendingRenderEventN (m + 1) h).1
        = (checkPendingRenderEvent h).1 :: List.replicate m false := by
    intro m h
    simp [checkPendingRenderEventN, hdrop m _ (hafter h)]
  refine ⟨?_, hflag h, hseq n h, ?_⟩
  · rcases h with _ | ⟨p, t⟩
    · simp [checkPendingRenderEvent]
    · cases p <;> simp [checkPendingRenderEvent, compare_exchange_strong]
  · cases n with
    | zero => simp [checkPendingRenderEventN]
    | succ m =>
      rw [hseq m h]
      cases (checkPendingRenderEvent h).1 <;> simp [List.count_cons, List.count_replicate]

/-- C4: when the sink rejects the frame start, the cycle asks the sink, posts exactly one
`updateDisplayMode` notification and returns: no snapshot access, no device frame call, no
overlay, no job graph run and no frame submission (whatever the simulation thread does to the
snapshot meanwhile). -/
theorem render_performFrame_sink_rejects (w : Nat) (env : FrameEnv)
    (editor : AppRenderArgs → AppRenderArgs) (st : Engine)
    (hreject : env.sinkAccepts = false) :
    (render_performFrame_edited w env editor st).2
        = [Event.getActiveDisplayPlugin,
           Event.beginFrameRender ((st._renderFrameCount + 1) % 2 ^ w),
           Event.updateDisplayMode]
    ∧ (render_performFrame_edited w env editor st).2.count Event.updateDisplayMode = 1
    ∧ (render_performFrame_edited w env editor st).2.filter Event.isFrameWork = []
    ∧ (render_performFrame_edited w env editor st).1
        = { st with _renderFrameCount := (st._renderFrameCount + 1) % 2 ^ w } := by
  have htr : render_performFrame_edited w env editor st
      = ({ st with _renderFrameCount := (st._renderFrameCount + 1) % 2 ^ w },
         [Event.getActiveDisplayPlugin,
          Event.beginFrameRender ((st._renderFrameCount + 1) % 2 ^ w),
          Event.updateDisplayMode]) := by
    simp [render_performFrame_edited, render_performFrame_locked, hreject]
  rw [htr]
  refine ⟨rfl, ?_, ?_, rfl⟩
  · simp [List.count_cons]
  · simp [List.filter, Event.isFrameWork]

/-- C5: when the sink accepts the frame start and the snapshot's render args carry no device
context, the cycle reads the snapshot under the lock and returns: no device frame call, no
overlay, no job graph run, no frame submission and no `updateDisplayMode` notification. -/
theorem render_performFrame_no_context (w : Nat) (env : FrameEnv)
    (editor : AppRenderArgs → AppRenderArgs) (st : Engine)
    (haccept : env.sinkAccepts = true)
    (hctx : st._appRenderArgs._renderArgs._context = none) :
    (render_performFrame_edited w env editor st).2
        = [Event.getActiveDisplayPlugin,
           Event.beginFrameRender ((st._renderFrameCount + 1) % 2 ^ w),
           Event.lockRenderArgs,
           Event.snapshotRead st._appRenderArgs,
           Event.unlockRenderArgs]
    ∧ (render_performFrame_edited w env editor st).2.filter Event.isDeviceWork = []
    ∧ (render_performFrame_edited w env editor st).2.count Event.updateDisplayMode = 0
    ∧ (render_performFrame_edited w env editor st).1
        = { st with _renderFrameCount := (st._renderFrameCount + 1) % 2 ^ w } := by
  have htr : render_performFrame_edited w env editor st
      = ({ st with _renderFrameCount := (st._renderFrameCount + 1) % 2 ^ w },
         [Event.getActiveDisplayPlugin,
          Event.beginFrameRender ((st._renderFrameCount + 1) % 2 ^ w),
          Event.lockRenderArgs,
          Event.snapshotRead st._appRenderArgs,
          Event.unlockRenderArgs]) := by
    simp [render_performFrame_edited, render_performFrame_locked, haccept, hctx]
  rw [htr]
  refine ⟨rfl, ?_, ?_, rfl⟩
  · simp [List.filter, Event.isDeviceWork]
  · simp [List.count_cons]

/-- C6: in a cycle where the sink accepts the frame start and the snapshot has a device
context, the steps sink beginFrameRender, snapshot read, device beginFrame, stage reset,
overlay pre-pass, job graph run, device endFrame, sink submitFrame happen once each, in this
order, and the submitted frame is the frame returned by the device with the frame index, the
framebuffer and the recycler attached. -/
theorem render_performFrame_cycle_order (w : Nat) (env : FrameEnv)
    (editor : AppRenderArgs → AppRenderArgs) (st : Engine) (ctx : Nat)
    (haccept : env.sinkAccepts = true)
    (hctx : st._appRenderArgs._renderArgs._context = some ctx) :
    (render_performFrame_edited w env editor st).2.filter Event.isCycleStep
      = [Event.beginFrameRender ((st._renderFrameCount + 1) % 2 ^ w),
         Event.snapshotRead st._appRenderArgs,
         Event.deviceBeginFrame (editor st._appRenderArgs)._view st._appRenderArgs._headPose,
         Event.batchResetStages,
         Event.renderOverlay { st._appRenderArgs._renderArgs with
           _viewport := (0, 0, env.deviceSize.1, env.deviceSize.2) },
         Event.engineRun { st._appRenderArgs._renderArgs with
           _viewport := (0, 0, env.deviceSize.1, env.deviceSize.2)
           _hudOperator := env.hudOperator
           _hudTexture := env.overlayTexture
           _blitFramebuffer := env.finalFramebuffer },
         Event.deviceEndFrame,
         Event.submitFrame { env.deviceFrame with
           frameIndex := (st._renderFrameCount + 1) % 2 ^ w
           framebuffer := env.finalFramebuffer
           framebufferRecycler := some Recycler.releaseToFramebufferCache }] := by
  cases hs : st._appRenderArgs._isStereo <;> cases hv : env.isValidID st.worldBoxItem <;>
    simp [render_performFrame_edited, render_performFrame_locked,
      render_performFrame_unlocked, render_runRenderFrame, editRenderArgs, haccept, hctx, hs, hv,
      List.filter, Event.isCycleStep]

/-- Witness for C4: the sample engine with a sink that rejects the frame start. -/
theorem render_performFrame_sink_rejects_witness :
    (sampleEnv false).sinkAccepts = false
    ∧ ((render_performFrame_edited 32 (sampleEnv false) id sampleEngine).2
        = [Event.getActiveDisplayPlugin,
           Event.beginFrameRender ((sampleEngine._renderFrameCount + 1) % 2 ^ 32),
           Event.updateDisplayMode]
      ∧ (render_performFrame_edited 32 (sampleEnv false) id sampleEngine).2.count
          Event.updateDisplayMode = 1
      ∧ (render_performFrame_edited 32 (sampleEnv false) id sampleEngine).2.filter
          Event.isFrameWork = []
      ∧ (render_performFrame_edited 32 (sampleEnv false) id sampleEngine).1
          = { sampleEngine with
              _renderFrameCount := (sampleEngine._renderFrameCount + 1) % 2 ^ 32 }) :=
  ⟨rfl, render_performFrame_sink_rejects 32 (sampleEnv false) id sampleEngine rfl⟩

/-- Witness for C5: the sample engine with a snapshot without device context. -/
theorem render_performFrame_no_context_witness :
    (sampleEnv true).sinkAccepts = true
    ∧ sampleEngineNoContext._appRenderArgs._renderArgs._context = none
    ∧ ((render_performFrame_edited 32 (sampleEnv true) id sampleEngineNoContext).2
        = [Event.getActiveDisplayPlugin,
           Event.beginFrameRender ((sampleEngineNoContext._renderFrameCount + 1) % 2 ^ 32),
           Event.lockRenderArgs,
           Event.snapshotRead sampleEngineNoContext._appRenderArgs,
           Event.unlockRenderArgs]
      ∧ (render_performFrame_edited 32 (sampleEnv true) id sampleEngineNoContext).2.filter
          Event.isDeviceWork = []
      ∧ (render_performFrame_edited 32 (sampleEnv true) id sampleEngineNoContext).2.count
          Event.updateDisplayMode = 0
      ∧ (render_performFrame_edited 32 (sampleEnv true) id sampleEngineNoContext).1
          = { sampleEngineNoContext with
              _renderFrameCount := (sampleEngineNoContext._renderFrameCount + 1) % 2 ^ 32 }) :=
  ⟨rfl, rfl,
    render_performFrame_no_context 32 (sampleEnv true) id sampleEngineNoContext rfl rfl⟩

/-- Witness for C6: the sample engine with a sink that accepts; the frame index is 42. -/
theorem render_performFrame_cycle_order_witness :
    (sampleEnv true).sinkAccepts = true
    ∧ sampleEngine._appRenderArgs._renderArgs._context = some 7
    ∧ (render_performFrame_edited 32 (sampleEnv true) id sampleEngine).2.filter
        Event.isCycleStep
      = [Event.beginFrameRender ((sampleEngine._renderFrameCount + 1) % 2 ^ 32),
         Event.snapshotRead sampleEngine._appRenderArgs,
         Event.deviceBeginFrame (id sampleEngine._appRenderArgs)._view
           sampleEngine._appRenderArgs._headPose,
         Event.batchResetStages,
         Event.renderOverlay { sampleEngine._appRenderArgs._renderArgs with
           _viewport := (0, 0, (sampleEnv true).deviceSize.1, (sampleEnv true).deviceSize.2) },
         Event.engineRun { sampleEngine._appRenderArgs._renderArgs with
           _viewport := (0, 0, (sampleEnv true).deviceSize.1, (sampleEnv true).deviceSize.2)
           _hudOperator := (sampleEnv true).hudOperator
           _hudTexture := (sampleEnv true).overlayTexture
           _blitFramebuffer := (sampleEnv true).finalFramebuffer },
         Event.deviceEndFrame,
         Event.submitFrame { (sampleEnv true).deviceFrame with
           frameIndex := (sampleEngine._renderFrameCount + 1) % 2 ^ 32
           framebuffer := (sampleEnv true).finalFramebuffer
           framebufferRecycler := some Recycler.releaseToFramebufferCache }] :=
  ⟨rfl, rfl, render_performFrame_cycle_order 32 (sampleEnv true) id sampleEngine 7 rfl rfl⟩

/-- The device frame calls of a concatenated trace. -/
theorem deviceCalls_append (a b : List Event) :
    deviceCalls (a ++ b) = deviceCalls a ++ deviceCalls b := by
  simp [deviceCalls, List.filterMap_append]

/-- One call of `render_performFrame`, with or without a concurrent edit, issues either no
device frame call or exactly `beginFrame, endFrame`. -/
theorem deviceCalls_render_performFrame_edited (w : Nat) (env : FrameEnv)
    (editor : AppRenderArgs → AppRenderArgs) (st : Engine) :
    deviceCalls (render_performFrame_edited w env editor st).2 = []
    ∨ deviceCalls (render_performFrame_edited w env editor st).2
        = [DeviceCall.beginFrame, DeviceCall.endFrame] := by
  cases ha : env.sinkAccepts
  · left
    simp [render_performFrame_edited, render_performFrame_locked, ha, deviceCalls,
      Event.deviceCall]
  · cases hc : st._appRenderArgs._renderArgs._context with
    | none =>
      left
      simp [render_performFrame_edited, render_performFrame_locked, ha, hc, deviceCalls,
        Event.deviceCall]
    | some ctx =>
      right
      cases hs : st._appRenderArgs._isStereo <;>
      cases hv : env.isValidID st.worldBoxItem <;>
        simp [render_performFrame_edited, render_performFrame_locked,
          render_performFrame_unlocked, render_runRenderFrame, editRenderArgs, ha, hc, hs, hv,
          deviceCalls, Event.deviceCall, List.filterMap]

/-- The lifecycle accepts `beginFrame, endFrame` from Idle and is Idle again afterwards. -/
theorem DeviceState.run_pair (cs : List DeviceCall) :
    DeviceState.run .Idle (DeviceCall.beginFrame :: DeviceCall.endFrame :: cs)
      = DeviceState.run .Idle cs := by
  simp [DeviceState.run, DeviceState.step, DeviceState.beginFrame, DeviceState.endFrame,
    DeviceState.resetForNextCycle]

/-- C7: from an Idle device, over any sequence of `render_performFrame` calls the device frame
calls are `beginFrame, endFrame` repeated (at most once per call), the lifecycle rejects none
of them and is Idle again after the last call; each single call leaves it Idle as well. -/
theorem runFrames_device_alternation (w : Nat) (calls : List FrameCall) (st : Engine) :
    (∃ k, k ≤ calls.length ∧ deviceCalls (runFrames w calls st).2 = alternation k)
    ∧ DeviceState.run .Idle (deviceCalls (runFrames w calls st).2) = some .Idle
    ∧ (∀ (env : FrameEnv) (editor : AppRenderArgs → AppRenderArgs),
        DeviceState.run .Idle (deviceCalls (render_performFrame_edited w env editor st).2)
          = some .Idle) := by
  refine ⟨?_, ?_, ?_⟩
  · induction calls generalizing st with
    | nil => exact ⟨0, Nat.le_refl _, rfl⟩
    | cons c cs ih =>
      obtain ⟨k, hk, hrest⟩ :=
        ih (render_performFrame_edited w c.env c.mid (editRenderArgs c.pre st)).1
      simp only [runFrames, deviceCalls_append, hrest, List.length_cons]
      rcases deviceCalls_render_performFrame_edited w c.env c.mid (editRenderArgs c.pre st)
        with h | h
      · exact ⟨k, by omega, by rw [h]; rfl⟩
      · exact ⟨k + 1, by omega, by rw [h]; rfl⟩
  · induction calls generalizing st with
    | nil => rfl
    | cons c cs ih =>
      have hrest := ih (render_performFrame_edited w c.env c.mid (editRenderArgs c.pre st)).1
      simp only [runFrames, deviceCalls_append]
      rcases deviceCalls_render_performFrame_edited w c.env c.mid (editRenderArgs c.pre st)
        with h | h
      · rw [h]; exact hrest
      · rw [h]
        exact (DeviceState.run_pair _).trans hrest
  · intro env editor
    rcases deviceCalls_render_performFrame_edited w env editor st with h | h
    · rw [h]; rfl
    · rw [h]; rfl

/-- C8: two runs of the sample cycle read the same snapshot under the lock; in the second the
simulation thread edits the view right after the lock is released, and the view handed to the
device `beginFrame` is the edited one, so the calls that reach the device differ. -/
theorem render_performFrame_view_read_after_unlock :
    snapshotReads (render_performFrame_edited 32 (sampleEnv true) id sampleEngine).2
      = [Event.snapshotRead sampleSnapshot]
    ∧ snapshotReads (render_performFrame_edited 32 (sampleEnv true) sampleViewEdit sampleEngine).2
      = [Event.snapshotRead sampleSnapshot]
    ∧ sampleSnapshot._view = ⟨1⟩
    ∧ Event.deviceBeginFrame ⟨1⟩ ⟨2⟩
        ∈ consumerCalls (render_performFrame_edited 32 (sampleEnv true) id sampleEngine).2
    ∧ Event.deviceBeginFrame ⟨99⟩ ⟨2⟩
        ∈ consumerCalls
            (render_performFrame_edited 32 (sampleEnv true) sampleViewEdit sampleEngine).2
    ∧ consumerCalls (render_performFrame_edited 32 (sampleEnv true) id sampleEngine).2
      ≠ consumerCalls
          (render_performFrame_edited 32 (sampleEnv true) sampleViewEdit sampleEngine).2 := by
  decide

/-- C9, as stated, fails: in the trace of `shutdown` no step before the device teardown stops
the scheduler, and the disposal of the render event handler comes after the teardown. -/
theorem shutdown_device_not_last :
    deviceTornDownAfterScheduler (shutdown sampleEngine).2 = false
    ∧ (beforeDeviceTeardown (shutdown sampleEngine).2).any Event.isSchedulerStop = false
    ∧ (fromDeviceTeardown (shutdown sampleEngine).2).any Event.isSchedulerStop = true := by
  decide

/-- C9, amended: in every run of `shutdown` the device teardown comes after the scene flush
and apply only; the one step that concerns the render scheduler is the `deleteLater` of the
render event handler, which is the last step and comes after the device teardown. -/
theorem shutdown_handler_disposed_after_device (st : Engine) :
    beforeDeviceTeardown (shutdown st).2
      = [Event.sceneEnqueueFrame, Event.sceneProcessTransactionQueue]
    ∧ fromDeviceTeardown (shutdown st).2
      = [Event.gpuContextShutdown, Event.releaseRenderScene, Event.releaseRenderEngine,
         Event.renderEventHandlerDeleteLater]
    ∧ (shutdown st).2.filter Event.isSchedulerStop = [Event.renderEventHandlerDeleteLater]
    ∧ (shutdown st).2.getLast? = some Event.renderEventHandlerDeleteLater := by
  have htr : (shutdown st).2
      = [Event.sceneEnqueueFrame, Event.sceneProcessTransactionQueue, Event.gpuContextShutdown,
         Event.releaseRenderScene, Event.releaseRenderEngine,
         Event.renderEventHandlerDeleteLater] := rfl
  rw [htr]
  decide

/-- C10: in every run of `shutdown` the scene transactions are flushed (`enqueueFrame`), then
applied (`processTransactionQueue`), then the device context is shut down, then the scene and
render engine references are dropped; on the scene's transaction queue this applies every
transaction enqueued before the shutdown and leaves none waiting. -/
theorem shutdown_flushes_scene_first (st : Engine) (scene : SceneModel) :
    (shutdown st).2
      = [Event.sceneEnqueueFrame, Event.sceneProcessTransactionQueue, Event.gpuContextShutdown,
         Event.releaseRenderScene, Event.releaseRenderEngine,
         Event.renderEventHandlerDeleteLater]
    ∧ (shutdown st).1._renderScene = none
    ∧ (shutdown st).1._renderEngine = none
    ∧ (scene.replay (shutdown st).2).applied
        = scene.applied ++ scene.transactionFrames.flatten ++ scene.transactionQueue
    ∧ (scene.replay (shutdown st).2).transactionQueue = []
    ∧ (scene.replay (shutdown st).2).transactionFrames = []
    ∧ (scene.replay (beforeDeviceTeardown (shutdown st).2)).applied
        = scene.applied ++ scene.transactionFrames.flatten ++ scene.transactionQueue := by
  have htr : (shutdown st).2
      = [Event.sceneEnqueueFrame, Event.sceneProcessTransactionQueue, Event.gpuContextShutdown,
         Event.releaseRenderScene, Event.releaseRenderEngine,
         Event.renderEventHandlerDeleteLater] := rfl
  have hbefore : beforeDeviceTeardown (shutdown st).2
      = [Event.sceneEnqueueFrame, Event.sceneProcessTransactionQueue] := by
    rw [htr]
    decide
  refine ⟨htr, rfl, rfl, ?_, ?_, ?_, ?_⟩
  · simp [htr, SceneModel.replay, SceneModel.step, List.append_assoc]
  · simp [htr, SceneModel.replay, SceneModel.step]
  · simp [htr, SceneModel.replay, SceneModel.step]
  · simp [hbefore, SceneModel.replay, SceneModel.step, List.append_assoc]

/-- The stereo flags after a concatenated trace. -/
theorem stereoReplay_append (s : Nat → Bool) (a b : List Event) :
    stereoReplay s (a ++ b) = stereoReplay (stereoReplay s a) b := by
  simp [stereoReplay, List.foldl_append]

/-- One call of `render_performFrame` leaves the stereo flag of every device context off when
all of them were off at its start. -/
theorem stereoReplay_render_performFrame_edited (w : Nat) (env : FrameEnv)
    (editor : AppRenderArgs → AppRenderArgs) (st : Engine) (s : Nat → Bool)
    (hs : ∀ c, st._appRenderArgs._renderArgs._context = some c → s c = false) :
    stereoReplay s (render_performFrame_edited w env editor st).2 = s := by
  cases ha : env.sinkAccepts
  · simp [render_performFrame_edited, render_performFrame_locked, ha, stereoReplay, stereoStep]
  · cases hc : st._appRenderArgs._renderArgs._context with
    | none =>
      simp [render_performFrame_edited, render_performFrame_locked, ha, hc, stereoReplay,
        stereoStep]
    | some ctx =>
      have hctx := hs ctx hc
      cases hst : st._appRenderArgs._isStereo <;>
      cases hv : env.isValidID st.worldBoxItem <;>
        simp [render_performFrame_edited, render_performFrame_locked,
          render_performFrame_unlocked, render_runRenderFrame, editRenderArgs, ha, hc, hst, hv,
          stereoReplay, stereoStep] <;>
        funext c1 <;> by_cases h1 : c1 = ctx <;> simp [h1, hctx]

/-- C11: when stereo is off on the device context of the snapshot as a call of
`render_performFrame` begins, the job graph of a completed cycle runs with stereo on exactly
when the snapshot's stereo flag is set (an aborted cycle runs no job graph), the stereo flags
are as before when the call returns on every path, and after any sequence of calls started in
mono stereo is off on every device context. -/
theorem render_performFrame_stereo_cleared (w : Nat) (env : FrameEnv)
    (editor : AppRenderArgs → AppRenderArgs) (st : Engine) (s : Nat → Bool)
    (calls : List FrameCall)
    (hs : ∀ c, st._appRenderArgs._renderArgs._context = some c → s c = false) :
    jobGraphStereo s (render_performFrame_edited w env editor st).2
      = (if env.sinkAccepts = true ∧ st._appRenderArgs._renderArgs._context.isSome = true then
          [st._appRenderArgs._isStereo]
        else [])
    ∧ stereoReplay s (render_performFrame_edited w env editor st).2 = s
    ∧ (∀ c, stereoReplay s (render_performFrame_edited w env editor st).2 c = s c)
    ∧ stereoReplay (fun _ => false) (runFrames w calls st).2 = (fun _ => false) := by
  have hcall := stereoReplay_render_performFrame_edited w env editor st s hs
  refine ⟨?_, hcall, fun c => by rw [hcall], ?_⟩
  · cases ha : env.sinkAccepts
    · simp [render_performFrame_edited, render_performFrame_locked, ha, jobGraphStereo]
    · cases hc : st._appRenderArgs._renderArgs._context with
      | none =>
        simp [render_performFrame_edited, render_performFrame_locked, ha, hc, jobGraphStereo]
      | some ctx =>
        have hctx := hs ctx hc
        cases hst : st._appRenderArgs._isStereo <;>
        cases hv : env.isValidID st.worldBoxItem <;>
          simp [render_performFrame_edited, render_performFrame_locked,
            render_performFrame_unlocked, render_runRenderFrame, editRenderArgs, ha, hc, hst,
            hv, jobGraphStereo, stereoStep, hctx]
  · clear hcall hs
    induction calls generalizing st with
    | nil => rfl
    | cons c cs ih =>
      simp only [runFrames, stereoReplay_append]
      rw [stereoReplay_render_performFrame_edited w c.env c.mid (editRenderArgs c.pre st)
        (fun _ => false) (fun _ _ => rfl)]
      exact ih _

/-- Witness for C11: a stereo snapshot on the sample engine, all device contexts in mono. -/
theorem render_performFrame_stereo_cleared_witness :
    (∀ c, sampleEngineStereo._appRenderArgs._renderArgs._context = some c →
        (fun _ => false : Nat → Bool) c = false)
    ∧ jobGraphStereo (fun _ => false)
        (render_performFrame_edited 32 (sampleEnv true) id sampleEngineStereo).2 = [true]
    ∧ stereoReplay (fun _ => false)
        (render_performFrame_edited 32 (sampleEnv true) id sampleEngineStereo).2
        = (fun _ => false) :=
  ⟨fun _ _ => rfl,
   (render_performFrame_stereo_cleared 32 (sampleEnv true) id sampleEngineStereo
      (fun _ => false) sampleCalls (fun _ _ => rfl)).1,
   (render_performFrame_stereo_cleared 32 (sampleEnv true) id sampleEngineStereo
      (fun _ => false) sampleCalls (fun _ _ => rfl)).2.1⟩

/-- The sink indices of a concatenated trace. -/
theorem sinkIndices_append (a b : List Event) :
    sinkIndices (a ++ b) = sinkIndices a ++ sinkIndices b := by
  simp [sinkIndices, List.filterMap_append]

/-- The frame indices of a concatenated trace. -/
theorem frameIndices_append (a b : List Event) :
    frameIndices (a ++ b) = frameIndices a ++ frameIndices b := by
  simp [frameIndices, List.filterMap_append]

/-- One call of `render_performFrame` increments the counter, passes the new value to the
sink, and a frame that it submits carries that same value. -/
theorem render_performFrame_edited_indices (w : Nat) (env : FrameEnv)
    (editor : AppRenderArgs → AppRenderArgs) (st : Engine) :
    (render_performFrame_edited w env editor st).1._renderFrameCount
      = (st._renderFrameCount + 1) % 2 ^ w
    ∧ sinkIndices (render_performFrame_edited w env editor st).2
      = [(st._renderFrameCount + 1) % 2 ^ w]
    ∧ frameIndices (render_performFrame_edited w env editor st).2
      = (if env.sinkAccepts = true ∧ st._appRenderArgs._renderArgs._context.isSome = true then
          [(st._renderFrameCount + 1) % 2 ^ w]
        else []) := by
  cases ha : env.sinkAccepts
  · simp [render_performFrame_edited, render_performFrame_locked, ha, sinkIndices,
      frameIndices, Event.sinkIndex, Event.frameIndex]
  · cases hc : st._appRenderArgs._renderArgs._context with
    | none =>
      simp [render_performFrame_edited, render_performFrame_locked, ha, hc, sinkIndices,
        frameIndices, Event.sinkIndex, Event.frameIndex]
    | some ctx =>
      cases hst : st._appRenderArgs._isStereo <;>
      cases hv : env.isValidID st.worldBoxItem <;>
        simp [render_performFrame_edited, render_performFrame_locked,
          render_performFrame_unlocked, render_runRenderFrame, editRenderArgs, ha, hc, hst, hv,
          sinkIndices, frameIndices, Event.sinkIndex, Event.frameIndex, List.filterMap]

/-- The trace of a sequence of calls is the concatenation of the traces of its calls. -/
theorem runFrames_trace_eq_flatten (w : Nat) (calls : List FrameCall) (st : Engine) :
    (runFrames w calls st).2 = (runFramesTraces w calls st).flatten := by
  induction calls generalizing st with
  | nil => rfl
  | cons c cs ih => simp [runFrames, runFramesTraces, ih]

/-- C12: over a sequence of `render_performFrame` calls without counter overflow, the n-th
call passes the initial frame count plus n to the sink, a frame it produces carries that same
index, and the indices of the frames produced over the sequence are strictly increasing. -/
theorem runFrames_frame_index (w : Nat) (calls : List FrameCall) (st : Engine)
    (hno : st._renderFrameCount + calls.length < 2 ^ w) :
    List.Forall₂
        (fun tr i => sinkIndices tr = [i] ∧ (frameIndices tr = [i] ∨ frameIndices tr = []))
        (runFramesTraces w calls st)
        (List.range' (st._renderFrameCount + 1) calls.length)
    ∧ (runFrames w calls st).2 = (runFramesTraces w calls st).flatten
    ∧ (frameIndices (runFrames w calls st).2).Pairwise (fun i j => i < j)
    ∧ (∀ i ∈ frameIndices (runFrames w calls st).2,
        st._renderFrameCount < i ∧ i ≤ st._renderFrameCount + calls.length)
    ∧ (runFrames w calls st).1._renderFrameCount = st._renderFrameCount + calls.length := by
  refine ⟨?_, runFrames_trace_eq_flatten w calls st, ?_⟩
  · induction calls generalizing st with
    | nil => exact List.Forall₂.nil
    | cons c cs ih =>
      obtain ⟨hcount, hsink, hframe⟩ :=
        render_performFrame_edited_indices w c.env c.mid (editRenderArgs c.pre st)
      have hmod : (st._renderFrameCount + 1) % 2 ^ w = st._renderFrameCount + 1 :=
        Nat.mod_eq_of_lt (by simp only [List.length_cons] at hno; omega)
      have hrc : (editRenderArgs c.pre st)._renderFrameCount = st._renderFrameCount := rfl
      rw [hrc, hmod] at hcount hsink hframe
      simp only [runFramesTraces, List.length_cons, List.range'_succ]
      refine List.Forall₂.cons ⟨hsink, ?_⟩ ?_
      · rw [hframe]
        split
        · exact Or.inl rfl
        · exact Or.inr rfl
      · have := ih (render_performFrame_edited w c.env c.mid (editRenderArgs c.pre st)).1
          (by rw [hcount]; simp only [List.length_cons] at hno; omega)
        rw [hcount] at this
        exact this
  · induction calls generalizing st with
    | nil => simp [runFrames, frameIndices]
    | cons c cs ih =>
      obtain ⟨hcount, -, hframe⟩ :=
        render_performFrame_edited_indices w c.env c.mid (editRenderArgs c.pre st)
      have hmod : (st._renderFrameCount + 1) % 2 ^ w = st._renderFrameCount + 1 :=
        Nat.mod_eq_of_lt (by simp only [List.length_cons] at hno; omega)
      have hrc : (editRenderArgs c.pre st)._renderFrameCount = st._renderFrameCount := rfl
      rw [hrc, hmod] at hcount hframe
      obtain ⟨hpw, hbound, hfinal⟩ :=
        ih (render_performFrame_edited w c.env c.mid (editRenderArgs c.pre st)).1
          (by rw [hcount]; simp only [List.length_cons] at hno; omega)
      rw [hcount] at hbound hfinal
      simp only [runFrames, frameIndices_append, List.length_cons]
      have hfirst : ∀ i ∈ frameIndices
          (render_performFrame_edited w c.env c.mid (editRenderArgs c.pre st)).2,
          i = st._renderFrameCount + 1 := by
        intro i hi
        rw [hframe] at hi
        split at hi
        · simpa using hi
        · simp at hi
      refine ⟨?_, ?_, by rw [hfinal]; omega⟩
      · rw [List.pairwise_append]
        refine ⟨?_, hpw, ?_⟩
        · rw [hframe]
          split <;> simp
        · intro a ha b hb
          have h1 := hfirst a ha
          have h2 := (hbound b hb).1
          omega
      · intro i hi
        rcases List.mem_append.mp hi with h | h
        · have := hfirst i h
          omega
        · have := hbound i h
          omega

/-- Witness for C12: three calls on the sample engine, whose counter starts at 41. -/
theorem runFrames_frame_index_witness :
    sampleEngine._renderFrameCount + sampleCalls.length < 2 ^ 32
    ∧ frameIndices (runFrames 32 sampleCalls sampleEngine).2 = [42, 44]
    ∧ sinkIndices (runFrames 32 sampleCalls sampleEngine).2 = [42, 43, 44]
    ∧ (frameIndices (runFrames 32 sampleCalls sampleEngine).2).Pairwise (fun i j => i < j) :=
  ⟨by decide, by decide, by decide,
   (runFrames_frame_index 32 sampleCalls sampleEngine (by decide)).2.2.1⟩

/-- C13: `initializeRender` makes exactly the calls addJob UpdateScene, addJob
SecondaryCameraJob (cull functor, negated `disableDeferred`), addJob RenderMainView (cull
functor, negated `disableDeferred`, tag bits), `load`, `registerScene`, shape pipeline
initialisation on a build without `Q_OS_ANDROID`, and the same without SecondaryCameraJob on
an Android build. So the jobs are appended in that fixed order, the jobs that take a deferred
flag (two, or one on Android) each receive the negation of `disableDeferred`, the jobs that
take a cull functor each receive the LOD predicate, and `load` and `registerScene` come after
the last `addJob`. -/
theorem initializeRender_job_graph (android : Bool) (shouldRender : CullFunctor)
    (disableDeferred : Bool) (st : Engine) :
    initializeRender false shouldRender disableDeferred st
      = [InitStep.addJob JobName.UpdateScene Job.UpdateSceneTask,
         InitStep.addJob JobName.SecondaryCameraJob
           (Job.SecondaryCameraRenderTask shouldRender (!disableDeferred)),
         InitStep.addJob JobName.RenderMainView
           (Job.RenderViewTask shouldRender (!disableDeferred) ItemKeyTag.TAG_BITS_0
             ItemKeyTag.TAG_BITS_0),
         InitStep.load, InitStep.registerScene st._renderScene,
         InitStep.initializeShapePipelines]
    ∧ initializeRender true shouldRender disableDeferred st
      = [InitStep.addJob JobName.UpdateScene Job.UpdateSceneTask,
         InitStep.addJob JobName.RenderMainView
           (Job.RenderViewTask shouldRender (!disableDeferred) ItemKeyTag.TAG_BITS_0
             ItemKeyTag.TAG_BITS_0),
         InitStep.load, InitStep.registerScene st._renderScene,
         InitStep.initializeShapePipelines]
    ∧ ((initializeRender android shouldRender disableDeferred st).filterMap
          InitStep.job).filterMap Job.deferredFlag
      = (if android then [!disableDeferred] else [!disableDeferred, !disableDeferred])
    ∧ ((initializeRender android shouldRender disableDeferred st).filterMap
          InitStep.job).filterMap Job.cullFunctorArg
      = (if android then [shouldRender] else [shouldRender, shouldRender])
    ∧ (initializeRender false shouldRender disableDeferred st).filterMap InitStep.jobName
      = [JobName.UpdateScene, JobName.SecondaryCameraJob, JobName.RenderMainView]
    ∧ (initializeRender true shouldRender disableDeferred st).filterMap InitStep.jobName
      = [JobName.UpdateScene, JobName.RenderMainView]
    ∧ (∀ d ∈ ((initializeRender android shouldRender disableDeferred st).filterMap
          InitStep.job).filterMap Job.deferredFlag, d = !disableDeferred)
    ∧ (∀ f ∈ ((initializeRender android shouldRender disableDeferred st).filterMap
          InitStep.job).filterMap Job.cullFunctorArg, f = shouldRender)
    ∧ (initializeRender android shouldRender disableDeferred st).dropWhile InitStep.isAddJob
      = [InitStep.load, InitStep.registerScene st._renderScene,
         InitStep.initializeShapePipelines]
    ∧ ((initializeRender android shouldRender disableDeferred st).takeWhile
          InitStep.isAddJob).length
      = (if android then 2 else 3) := by
  refine ⟨?_, ?_, ?_, ?_, ?_, ?_, ?_, ?_, ?_, ?_⟩
  · simp [initializeRender]
  · simp [initializeRender]
  · cases android <;> rfl
  · cases android <;> rfl
  · simp [initializeRender, InitStep.jobName]
  · simp [initializeRender, InitStep.jobName]
  · cases android <;>
      simp [initializeRender, InitStep.job, Job.deferredFlag]
  · cases android <;>
      simp [initializeRender, InitStep.job, Job.cullFunctorArg]
  · cases android <;>
      simp [initializeRender, List.dropWhile, InitStep.isAddJob]
  · cases android <;>
      simp [initializeRender, List.takeWhile, InitStep.isAddJob]

end GraphicsEngine


namespace Face

/-- A value below `2 ^ 31` survives the conversion to `int`. -/
theorem toInt_of_lt (n : Nat) (h : n < 2 ^ 31) : toInt n = (n : Int) := by
  have hmod : n % 2 ^ 32 = n := Nat.mod_eq_of_lt (by omega)
  unfold toInt
  rw [hmod, if_pos h]

/-- A write inside the buffer keeps its length. -/
theorem write_length (buf : List Nat) (o : Nat) (src : List Nat)
    (h : o + src.length ≤ buf.length) : (write buf o src).length = buf.length := by
  simp [write]
  omega

/-- The bytes of a buffer after a write inside it. -/
theorem write_getElem? (buf : List Nat) (o : Nat) (src : List Nat) (i : Nat)
    (h : o + src.length ≤ buf.length) :
    (write buf o src)[i]? = if o ≤ i ∧ i < o + src.length then src[i - o]? else buf[i]? := by
  have hlen : (List.take o buf).length = o := by
    rw [List.length_take]
    omega
  unfold write
  by_cases h1 : i < o
  · rw [List.append_assoc, List.getElem?_append_left (by rw [hlen]; exact h1),
      List.getElem?_take, if_pos h1, if_neg (by omega)]
  · by_cases h2 : i < o + src.length
    · rw [List.getElem?_append_left (by rw [List.length_append, hlen]; exact h2),
        List.getElem?_append_right (by rw [hlen]; omega), hlen, if_pos ⟨by omega, h2⟩]
    · rw [List.getElem?_append_right (by rw [List.length_append, hlen]; omega),
        List.length_append, hlen, List.getElem?_drop, if_neg (by omega)]
      congr 1
      omega

/-- The `memcpy` of a whole payload to a place inside the buffer is defined and is a write. -/
theorem memcpy_payload (buf : List Nat) (o : Nat) (src : List Nat)
    (h : o + src.length ≤ buf.length) :
    memcpy buf (o : Int) src (src.length : Int) = some (write buf o src) := by
  have hc : (0 : Int) ≤ (src.length : Int) ∧ (0 : Int) ≤ (o : Int)
      ∧ (src.length : Int) ≤ (src.length : Int) ∧ (o : Int) + (src.length : Int) ≤ buf.length :=
    ⟨by omega, by omega, le_refl _, by exact_mod_cast h⟩
  simp only [memcpy, if_pos hc, Int.toNat_ofNat, List.take_length, write]

/-- A resize to a size that is not negative gives a buffer of that size. -/
theorem resize_length (junk : Nat → Nat) (buf : List Nat) (n : Nat) :
    (resize junk buf (n : Int)).length = n := by
  simp [resize]
  omega

/-- A packet of the frame being reassembled, whose payload falls inside the buffer and is not
larger than the count of bytes remaining: the payload is written at its offset, the count goes
down by its size, and the decoder is invoked when the count reaches zero. -/
theorem processVideoMessage_inProgress (junk : Nat → Nat) (face : Face) (fc N : Nat)
    (f : Fragment)
    (hinit : face.codecInitialised = true) (hfc : face._frameCount = toInt fc)
    (hbuf : f.offset + f.payload.length ≤ face._arrivingFrame.length)
    (hlen : face._arrivingFrame.length < 2 ^ 31)
    (hrem : (f.payload.length : Int) ≤ face._frameBytesRemaining) :
    processVideoMessage junk face (f.toPacket fc N)
      = some { returned := toInt (HEADER_BYTES + f.payload.length)
               face := { face with
                 _arrivingFrame := write face._arrivingFrame f.offset f.payload
                 _frameBytesRemaining := face._frameBytesRemaining - f.payload.length }
               decoded :=
                 if face._frameBytesRemaining - f.payload.length ≤ 0 then
                   some (write face._arrivingFrame f.offset f.payload)
                 else none } := by
  have hic : initCodec face = face := by simp [initCodec, hinit]
  have hreset : resetForNewFrame junk face (f.toPacket fc N) = face := by
    simp [resetForNewFrame, Fragment.toPacket, hfc]
  have hoff : toInt f.offset = (f.offset : Int) := toInt_of_lt _ (by omega)
  have hpay : toInt ((f.toPacket fc N).dataBytes - HEADER_BYTES) = (f.payload.length : Int) := by
    simp only [VideoPacket.dataBytes, Fragment.toPacket, Nat.add_sub_cancel_left]
    exact toInt_of_lt _ (by omega)
  have hnotold : ¬ toInt (f.toPacket fc N).frameCount < face._frameCount := by
    simp [Fragment.toPacket, hfc]
  have hnoover : ¬ face._frameBytesRemaining - (f.payload.length : Int) < -(2 ^ 31) := by
    omega
  unfold processVideoMessage
  simp only [hic, if_neg hnotold, hreset, hpay]
  have hcopy : memcpy face._arrivingFrame (toInt (f.toPacket fc N).frameOffset)
      (f.toPacket fc N).payload (f.payload.length : Int)
      = some (write face._arrivingFrame f.offset f.payload) := by
    simp only [Fragment.toPacket, hoff]
    exact memcpy_payload _ _ _ hbuf
  rw [hcopy]
  simp only [if_neg hnoover]
  by_cases hz : face._frameBytesRemaining - (f.payload.length : Int) ≤ 0
  · simp [hz, VideoPacket.dataBytes, Fragment.toPacket]
  · simp [hz, VideoPacket.dataBytes, Fragment.toPacket]

/-- The first packet of a newer frame is handled as a packet of a frame in progress, after
the reassembly state has been reset for the new frame. -/
theorem processVideoMessage_newFrame (junk : Nat → Nat) (face : Face) (fc N : Nat)
    (f : Fragment) (hnew : toInt fc > face._frameCount) (hN : N < 2 ^ 31) :
    processVideoMessage junk face (f.toPacket fc N)
      = processVideoMessage junk
          { codecInitialised := true, _frameCount := toInt fc, _frameBytesRemaining := (N : Int),
            _arrivingFrame := resize junk face._arrivingFrame (N : Int) }
          (f.toPacket fc N) := by
  have hsize : toInt N = (N : Int) := toInt_of_lt _ hN
  have hnotold : ¬ toInt fc < face._frameCount := by omega
  cases hci : face.codecInitialised <;>
    simp [processVideoMessage, initCodec, resetForNewFrame, Fragment.toPacket, hci, hnew,
      hnotold, hsize]

/-- Fragments that are not empty carry at least one byte in total. -/
theorem totalBytes_pos (fs : List Fragment) (hne : fs ≠ [])
    (hpay : ∀ f ∈ fs, f.payload ≠ []) : 0 < totalBytes fs := by
  cases fs with
  | nil => exact absurd rfl hne
  | cons f rest =>
    have h1 : f.payload ≠ [] := hpay f (List.mem_cons_self _ _)
    have h2 : 0 < f.payload.length := List.length_pos.mpr h1
    simp only [totalBytes, List.map_cons, List.sum_cons]
    omega

/-- Writing a fragment of `data` keeps the buffer equal to `data` wherever it was, and makes
it equal to `data` on the positions of the fragment. -/
theorem write_agrees (buf data : List Nat) (f : Fragment) (i : Nat)
    (hlen : buf.length = data.length) (hslice : f.sliceOf data)
    (h : buf[i]? = data[i]? ∨ f.covers i) :
    (write buf f.offset f.payload)[i]? = data[i]? := by
  rw [write_getElem? _ _ _ _ (by rw [hlen]; exact hslice.1)]
  by_cases hc : f.offset ≤ i ∧ i < f.offset + f.payload.length
  · rw [if_pos hc, hslice.2 (i - f.offset) (by omega)]
    congr 1
    omega
  · rw [if_neg hc]
    rcases h with h | h
    · exact h
    · exact absurd h hc

/-- Delivery of the fragments that are still missing, in any order, to a face that is
reassembling the frame: only the last packet invokes the decoder, and the buffer then equals
`data` wherever it did before and on the positions of the delivered fragments. -/
theorem deliver_inProgress (junk : Nat → Nat) (data : List Nat) (fc : Nat)
    (hN : data.length < 2 ^ 31) (rest : List Fragment) :
    ∀ face : Face, rest ≠ [] →
      face.codecInitialised = true → face._frameCount = toInt fc →
      face._arrivingFrame.length = data.length →
      face._frameBytesRemaining = (totalBytes rest : Int) →
      (∀ f ∈ rest, f.payload ≠ [] ∧ f.sliceOf data) →
      ∃ buf, deliver junk face (rest.map (Fragment.toPacket fc data.length))
          = some ({ face with _arrivingFrame := buf, _frameBytesRemaining := 0 },
                  List.replicate (rest.length - 1) none ++ [some buf])
        ∧ buf.length = data.length
        ∧ ∀ i, (face._arrivingFrame[i]? = data[i]? ∨ ∃ f ∈ rest, f.covers i) →
            buf[i]? = data[i]? := by
  induction rest with
  | nil => intro face hne; exact absurd rfl hne
  | cons f rest ih =>
    intro face _ hinit hfc hlen hrem hall
    obtain ⟨-, hslice⟩ := hall f (List.mem_cons_self _ _)
    have htot : totalBytes (f :: rest) = f.payload.length + totalBytes rest := by
      simp [totalBytes]
    have hstep := processVideoMessage_inProgress junk face fc data.length f hinit hfc
      (by rw [hlen]; exact hslice.1) (by rw [hlen]; exact hN)
      (by rw [hrem, htot]; push_cast; omega)
    have hrem1 : face._frameBytesRemaining - (f.payload.length : Int) = (totalBytes rest : Int) := by
      rw [hrem, htot]; push_cast; omega
    have hwlen : (write face._arrivingFrame f.offset f.payload).length = data.length := by
      rw [write_length _ _ _ (by rw [hlen]; exact hslice.1), hlen]
    by_cases hrest : rest = []
    · subst hrest
      have hzero : face._frameBytesRemaining - (f.payload.length : Int) = 0 := by
        rw [hrem1]; simp [totalBytes]
      refine ⟨write face._arrivingFrame f.offset f.payload, ?_, hwlen, ?_⟩
      · simp only [List.map_cons, List.map_nil, deliver, hstep, hzero]
        simp
      · intro i hi
        apply write_agrees _ _ _ _ hlen hslice
        rcases hi with hi | ⟨g, hg, hcov⟩
        · exact Or.inl hi
        · rw [List.mem_singleton] at hg
          subst hg
          exact Or.inr hcov
    · have hpos : 0 < totalBytes rest :=
        totalBytes_pos rest hrest (fun g hg => (hall g (List.mem_cons_of_mem _ hg)).1)
      have hnz : ¬ face._frameBytesRemaining - (f.payload.length : Int) ≤ 0 := by
        rw [hrem1]; omega
      obtain ⟨buf, hdel, hbl, hagree⟩ := ih
        { face with
          _arrivingFrame := write face._arrivingFrame f.offset f.payload
          _frameBytesRemaining := face._frameBytesRemaining - f.payload.length }
        hrest hinit hfc hwlen hrem1 (fun g hg => hall g (List.mem_cons_of_mem _ hg))
      refine ⟨buf, ?_, hbl, ?_⟩
      · have hl : 0 < rest.length := List.length_pos.mpr hrest
        have hrep : List.replicate ((f :: rest).length - 1) (none : Option (List Nat))
            = none :: List.replicate (rest.length - 1) none := by
          rw [List.length_cons, Nat.add_sub_cancel, ← List.replicate_succ]
          congr 1
          omega
        simp only [List.map_cons, deliver, hstep, if_neg hnz, hdel, hrep, List.cons_append]
      · intro i hi
        apply hagree
        rcases hi with hi | ⟨g, hg, hcov⟩
        · exact Or.inl (write_agrees _ _ _ _ hlen hslice (Or.inl hi))
        · rcases List.mem_cons.mp hg with hg | hg
          · subst hg
            exact Or.inl (write_agrees _ _ _ _ hlen hslice (Or.inr hcov))
          · exact Or.inr ⟨g, hg, hcov⟩

/-- The fragments of consecutive chunks are parts of the data they were cut from, carry all
its bytes, and fill every position of it. -/
theorem fragments_spec (chunks : List (List Nat)) :
    ∀ (pre data : List Nat), data = pre ++ chunks.flatten →
      (∀ f ∈ fragments pre.length chunks, f.sliceOf data)
      ∧ ((∀ c ∈ chunks, c ≠ []) → ∀ f ∈ fragments pre.length chunks, f.payload ≠ [])
      ∧ totalBytes (fragments pre.length chunks) = chunks.flatten.length
      ∧ (∀ i, pre.length ≤ i → i < data.length →
          ∃ f ∈ fragments pre.length chunks, f.covers i) := by
  induction chunks with
  | nil =>
    intro pre data hdata
    subst hdata
    refine ⟨?_, ?_, ?_, ?_⟩
    · intro f hf; simp [fragments] at hf
    · intro _ f hf; simp [fragments] at hf
    · simp [fragments, totalBytes]
    · intro i h1 h2
      simp at h2
      omega
  | cons c cs ih =>
    intro pre data hdata
    have hdata1 : data = (pre ++ c) ++ cs.flatten := by
      rw [hdata, List.flatten_cons, List.append_assoc]
    obtain ⟨hs, hne, htot, hcov⟩ := ih (pre ++ c) data hdata1
    rw [List.length_append] at hs hne htot hcov
    have hdlen : data.length = pre.length + c.length + cs.flatten.length := by
      rw [hdata1, List.length_append, List.length_append]
    refine ⟨?_, ?_, ?_, ?_⟩
    · intro f hf
      simp only [fragments, List.mem_cons] at hf
      rcases hf with hf | hf
      · subst hf
        refine ⟨by simp only; omega, ?_⟩
        intro j hj
        simp only at hj ⊢
        rw [hdata1, List.getElem?_append_left (by rw [List.length_append]; omega),
          List.getElem?_append_right (by omega), Nat.add_sub_cancel_left]
      · exact hs f hf
    · intro hall f hf
      simp only [fragments, List.mem_cons] at hf
      rcases hf with hf | hf
      · subst hf
        exact hall c (List.mem_cons_self _ _)
      · exact hne (fun d hd => hall d (List.mem_cons_of_mem _ hd)) f hf
    · simp only [fragments, totalBytes, List.map_cons, List.sum_cons, List.flatten_cons,
        List.length_append]
      simp only [totalBytes] at htot
      rw [htot]
    · intro i h1 h2
      by_cases hi : i < pre.length + c.length
      · exact ⟨{ offset := pre.length, payload := c }, by simp [fragments], h1, hi⟩
      · obtain ⟨f, hf, hc⟩ := hcov i (by omega) h2
        exact ⟨f, by simp only [fragments, List.mem_cons]; exact Or.inr hf, hc⟩

/-- The fragments of a frame, delivered in any order to a face that holds an older frame:
the decoder is invoked once, by the last packet, on the bytes of the frame. -/
theorem deliver_newFrame (junk : Nat → Nat) (face : Face) (data : List Nat)
    (chunks : List (List Nat)) (frags : List Fragment) (fc : Nat)
    (hnew : toInt fc > face._frameCount) (hfne : frags ≠ []) (hN : data.length < 2 ^ 31)
    (hsplit : chunks.flatten = data) (hne : ∀ c ∈ chunks, c ≠ [])
    (hperm : frags.Perm (fragments 0 chunks)) :
    deliver junk face (frags.map (Fragment.toPacket fc data.length))
      = some ({ codecInitialised := true, _frameCount := toInt fc, _frameBytesRemaining := 0,
                _arrivingFrame := data },
              List.replicate (frags.length - 1) none ++ [some data]) := by
  obtain ⟨hs, hpay, htot, hcov⟩ := fragments_spec chunks [] data (by simp [hsplit])
  simp only [List.length_nil] at hs hpay htot hcov
  have hall : ∀ f ∈ frags, f.payload ≠ [] ∧ f.sliceOf data := fun f hf =>
    ⟨hpay hne f (hperm.mem_iff.mp hf), hs f (hperm.mem_iff.mp hf)⟩
  have htotal : totalBytes frags = data.length := by
    rw [← hsplit, ← htot]
    exact (hperm.map (fun f => f.payload.length)).sum_eq
  obtain ⟨buf, hdel, hbl, hagree⟩ := deliver_inProgress junk data fc hN frags
    { codecInitialised := true, _frameCount := toInt fc,
      _frameBytesRemaining := (data.length : Int),
      _arrivingFrame := resize junk face._arrivingFrame (data.length : Int) }
    hfne rfl rfl (resize_length _ _ _) (by rw [htotal]) hall
  have hbuf : buf = data := by
    apply List.ext_getElem?
    intro i
    by_cases hi : i < data.length
    · obtain ⟨f, hf, hc⟩ := hcov i (Nat.zero_le _) hi
      exact hagree i (Or.inr ⟨f, hperm.mem_iff.mpr hf, hc⟩)
    · rw [List.getElem?_eq_none (by omega), List.getElem?_eq_none (by omega)]
  rw [hbuf] at hdel
  rw [← hdel]
  cases frags with
  | nil => exact absurd rfl hfne
  | cons f rest =>
    simp only [List.map_cons, deliver]
    rw [processVideoMessage_newFrame junk face fc data.length f hnew hN]

/-- A packet of an older frame, or a packet whose payload copy stays inside the packet and
the arriving-frame buffer and whose size does not overflow the byte counter: the call returns,
and it returns `dataBytes` converted to `int`. -/
theorem processVideoMessage_defined (junk : Nat → Nat) (face : Face) (p : VideoPacket)
    (h : toInt p.frameCount < face._frameCount
      ∨ (0 ≤ toInt p.frameOffset
        ∧ 0 ≤ toInt (p.dataBytes - HEADER_BYTES)
        ∧ toInt (p.dataBytes - HEADER_BYTES) ≤ (p.payload.length : Int)
        ∧ toInt p.frameOffset + toInt (p.dataBytes - HEADER_BYTES)
            ≤ ((resetForNewFrame junk (initCodec face) p)._arrivingFrame.length : Int)
        ∧ -(2 ^ 31) ≤ (resetForNewFrame junk (initCodec face) p)._frameBytesRemaining
            - toInt (p.dataBytes - HEADER_BYTES))) :
    ∃ r, processVideoMessage junk face p = some r ∧ r.returned = toInt p.dataBytes := by
  have hcount : (initCodec face)._frameCount = face._frameCount := by
    unfold initCodec; split <;> rfl
  by_cases hold : toInt p.frameCount < face._frameCount
  · refine ⟨{ returned := toInt p.dataBytes, face := initCodec face, decoded := none }, ?_, rfl⟩
    unfold processVideoMessage
    simp only [hcount, if_pos hold]
  · rcases h with h | ⟨h1, h2, h3, h4, h5⟩
    · exact absurd h hold
    · have hm : memcpy (resetForNewFrame junk (initCodec face) p)._arrivingFrame
          (toInt p.frameOffset) p.payload (toInt (p.dataBytes - HEADER_BYTES))
          = some (List.take (toInt p.frameOffset).toNat
                (resetForNewFrame junk (initCodec face) p)._arrivingFrame
              ++ List.take (toInt (p.dataBytes - HEADER_BYTES)).toNat p.payload
              ++ List.drop ((toInt p.frameOffset).toNat
                  + (toInt (p.dataBytes - HEADER_BYTES)).toNat)
                (resetForNewFrame junk (initCodec face) p)._arrivingFrame) := by
        unfold memcpy
        rw [if_pos ⟨h2, h1, h3, h4⟩]
      have hov : ¬ (resetForNewFrame junk (initCodec face) p)._frameBytesRemaining
          - toInt (p.dataBytes - HEADER_BYTES) < -(2 ^ 31) := not_lt.mpr h5
      unfold processVideoMessage
      simp only [hcount, if_neg hold, hm, if_neg hov]
      split
      · exact ⟨_, rfl, rfl⟩
      · exact ⟨_, rfl, rfl⟩

/-- C14, as stated, fails: on a face fresh from the constructor, a packet numbered 0 with one
byte of payload is not older and not newer than the current frame, so the buffer is not
resized and the copy of the payload leaves the empty buffer: the call is undefined and
returns nothing. -/
theorem processVideoMessage_undefined_on_fresh_face :
    processVideoMessage (fun _ => 0) freshFace samplePacketZero = none
    ∧ ¬ (∃ r, processVideoMessage (fun _ => 0) freshFace samplePacketZero = some r
          ∧ r.returned = (samplePacketZero.dataBytes : Int)) := by
  have hnone : processVideoMessage (fun _ => 0) freshFace samplePacketZero = none := by decide
  refine ⟨hnone, ?_⟩
  rintro ⟨r, hr, -⟩
  rw [hnone] at hr
  cases hr

/-- C14, amended: for a packet of an older frame, and for any packet whose payload copy stays
inside the packet and the arriving-frame buffer and does not overflow the byte counter, the
call of `processVideoMessage` returns, and it returns `dataBytes` converted to `int`
(`dataBytes` itself when below `2 ^ 31`); the call is undefined exactly when the packet is not
older and the copy leaves the buffer or the counter overflows; a packet of an older frame
leaves the frame count, the bytes remaining and the arriving-frame buffer unchanged; and the
fragments of a newer frame of less than `2 ^ 31` bytes, cut from its bytes at consecutive
offsets into parts that are not empty and delivered in any order, invoke the decoder exactly
once, on the last packet, with the bytes of the frame. -/
theorem processVideoMessage_reassembly (junk : Nat → Nat) (face : Face) (p : VideoPacket) :
    ((toInt p.frameCount < face._frameCount
        ∨ (0 ≤ toInt p.frameOffset
          ∧ 0 ≤ toInt (p.dataBytes - HEADER_BYTES)
          ∧ toInt (p.dataBytes - HEADER_BYTES) ≤ (p.payload.length : Int)
          ∧ toInt p.frameOffset + toInt (p.dataBytes - HEADER_BYTES)
              ≤ ((resetForNewFrame junk (initCodec face) p)._arrivingFrame.length : Int)
          ∧ -(2 ^ 31) ≤ (resetForNewFrame junk (initCodec face) p)._frameBytesRemaining
              - toInt (p.dataBytes - HEADER_BYTES))) →
        ∃ r, processVideoMessage junk face p = some r ∧ r.returned = toInt p.dataBytes)
    ∧ (∀ r, processVideoMessage junk face p = some r → r.returned = toInt p.dataBytes)
    ∧ (p.dataBytes < 2 ^ 31 → toInt p.dataBytes = (p.dataBytes : Int))
    ∧ (processVideoMessage junk face p = none ↔
        ¬ toInt p.frameCount < face._frameCount
        ∧ (memcpy (resetForNewFrame junk (initCodec face) p)._arrivingFrame
              (toInt p.frameOffset) p.payload (toInt (p.dataBytes - HEADER_BYTES)) = none
          ∨ (resetForNewFrame junk (initCodec face) p)._frameBytesRemaining
              - toInt (p.dataBytes - HEADER_BYTES) < -(2 ^ 31)))
    ∧ (toInt p.frameCount < face._frameCount →
        processVideoMessage junk face p
          = some { returned := toInt p.dataBytes, face := initCodec face, decoded := none }
        ∧ (initCodec face)._frameCount = face._frameCount
        ∧ (initCodec face)._frameBytesRemaining = face._frameBytesRemaining
        ∧ (initCodec face)._arrivingFrame = face._arrivingFrame)
    ∧ (∀ (data : List Nat) (chunks : List (List Nat)) (frags : List Fragment) (fc : Nat),
        toInt fc > face._frameCount → frags ≠ [] → data.length < 2 ^ 31 →
        chunks.flatten = data → (∀ c ∈ chunks, c ≠ []) → frags.Perm (fragments 0 chunks) →
        deliver junk face (frags.map (Fragment.toPacket fc data.length))
          = some ({ codecInitialised := true, _frameCount := toInt fc,
                    _frameBytesRemaining := 0, _arrivingFrame := data },
                  List.replicate (frags.length - 1) none ++ [some data])) := by
  have hcount : (initCodec face)._frameCount = face._frameCount := by
    unfold initCodec; split <;> rfl
  have hremaining : (initCodec face)._frameBytesRemaining = face._frameBytesRemaining := by
    unfold initCodec; split <;> rfl
  have hbuffer : (initCodec face)._arrivingFrame = face._arrivingFrame := by
    unfold initCodec; split <;> rfl
  refine ⟨processVideoMessage_defined junk face p, ?_, fun h => toInt_of_lt _ h, ?_, ?_, ?_⟩
  · intro r hr
    unfold processVideoMessage at hr
    simp only at hr
    split at hr
    · cases hr; rfl
    · split at hr
      · cases hr
      · split at hr
        · cases hr
        · split at hr <;> (cases hr; rfl)
  · by_cases hold : toInt p.frameCount < face._frameCount
    · have hsome : processVideoMessage junk face p
          = some { returned := toInt p.dataBytes, face := initCodec face, decoded := none } := by
        unfold processVideoMessage
        simp only [hcount, if_pos hold]
      rw [hsome]
      exact ⟨fun h => (by cases h), fun h => absurd hold h.1⟩
    · cases hm : memcpy (resetForNewFrame junk (initCodec face) p)._arrivingFrame
          (toInt p.frameOffset) p.payload (toInt (p.dataBytes - HEADER_BYTES)) with
      | none =>
        have hnone : processVideoMessage junk face p = none := by
          unfold processVideoMessage
          simp only [hcount, if_neg hold, hm]
        exact ⟨fun _ => ⟨hold, Or.inl rfl⟩, fun _ => hnone⟩
      | some buf =>
        by_cases hov : (resetForNewFrame junk (initCodec face) p)._frameBytesRemaining
            - toInt (p.dataBytes - HEADER_BYTES) < -(2 ^ 31)
        · have hnone : processVideoMessage junk face p = none := by
            unfold processVideoMessage
            simp only [hcount, if_neg hold, hm, if_pos hov]
          exact ⟨fun _ => ⟨hold, Or.inr hov⟩, fun _ => hnone⟩
        · have hsome : processVideoMessage junk face p ≠ none := by
            unfold processVideoMessage
            simp only [hcount, if_neg hold, hm, if_neg hov]
            split <;> exact fun h => by cases h
          refine ⟨fun h => absurd h hsome, ?_⟩
          rintro ⟨-, h | h⟩
          · cases h
          · exact absurd h hov
  · intro hold
    refine ⟨?_, hcount, hremaining, hbuffer⟩
    unfold processVideoMessage
    simp only [hcount, if_pos hold]
  · intro data chunks frags fc hnew hfne hN hsplit hne hperm
    exact deliver_newFrame junk face data chunks frags fc hnew hfne hN hsplit hne hperm

/-- Witness for C14: an old packet, then frame 5 of five bytes delivered to the sample face
in the order last, first, middle fragment. -/
theorem processVideoMessage_reassembly_witness :
    (toInt samplePacketOld.frameCount < sampleFace._frameCount
      ∧ toInt 5 > sampleFace._frameCount ∧ sampleFragments ≠ [] ∧ sampleData.length < 2 ^ 31
      ∧ sampleChunks.flatten = sampleData ∧ (∀ c ∈ sampleChunks, c ≠ [])
      ∧ sampleFragments.Perm (fragments 0 sampleChunks))
    ∧ (∃ r, processVideoMessage (fun _ => 0) sampleFace samplePacketOld = some r
        ∧ r.returned = toInt samplePacketOld.dataBytes)
    ∧ processVideoMessage (fun _ => 0) sampleFace samplePacketOld
        = some { returned := 14, face := sampleFace, decoded := none }
    ∧ deliver (fun _ => 0) sampleFace
          (sampleFragments.map (Fragment.toPacket 5 sampleData.length))
        = some ({ codecInitialised := true, _frameCount := toInt 5, _frameBytesRemaining := 0,
                  _arrivingFrame := sampleData },
                List.replicate (sampleFragments.length - 1) none ++ [some sampleData]) :=
  ⟨⟨by decide, by decide, by decide, by decide, by decide, by decide, by decide⟩,
   (processVideoMessage_reassembly (fun _ => 0) sampleFace samplePacketOld).1
      (Or.inl (by decide)),
   ((processVideoMessage_reassembly (fun _ => 0) sampleFace samplePacketOld).2.2.2.2.1
      (by decide)).1,
   (processVideoMessage_reassembly (fun _ => 0) sampleFace samplePacketOld).2.2.2.2.2
      sampleData sampleChunks sampleFragments 5 (by decide) (by decide) (by decide) (by decide)
      (by decide) (by decide)⟩

end Face
